import Mathlib

/-!
Verification development for the semantic-analysis core of libutap
(UPPAAL timed-automata parser): a shallow embedding of the type checker
in src/typechecker.cpp and of the statement AST in statement.cpp,
together with theorems settling the specification claims.

The C++ `Constants::kind_t` is a single enumeration shared by type kinds
and expression kinds; we mirror that with one `Kind` enum (this matters:
`isSameScalarType` compares a type kind against the expression kind `EF`).

Types, expressions and symbols are modelled as one mutual inductive
family following the spec's data model (the type_t / expression_t /
symbol_t headers are not part of the given sources): a type is a kind
with labelled subtypes and an optional range (two expressions); an
expression is a kind with children, an integer value, an optional symbol
and an attached type.  Positions are dropped; diagnostics keep only the
message and the severity.
-/

set_option maxHeartbeats 1000000

namespace Utap

/-- The shared constant enumeration (type kinds, type constructors and
prefixes, and the expression kinds used by the modelled fragment). -/
inductive Kind where
  -- type kinds
  | UNKNOWN | VOID | CLOCK | INT | DOUBLE | BOOL | SCALAR | LOCATION
  | CHANNEL | COST | INVARIANT | INVARIANT_WR | GUARD | DIFF | CONSTRAINT
  | FORMULA | PROBABILITY | RATE | TIOGRAPH | DOUBLEINVGUARD | PROCESS
  | PROCESSVAR | FUNCTION
  -- type constructors
  | ARRAY | RECORD | RANGE | LABEL | LIST
  -- type prefixes
  | URGENT | COMMITTED | BROADCAST | HYBRID | CONSTANT | SYSTEM_META | REF
  -- expression kinds (fragment relevant to the modelled checker)
  | EMPTY | IDENTIFIER | DOT | FRACTION
  | PLUS | MINUS | MULT | DIV | MOD | MIN | MAX
  | BIT_AND | BIT_OR | BIT_XOR | BIT_LSHIFT | BIT_RSHIFT
  | AND | OR | XOR | NOT | UNARY_MINUS
  | LT | LE | GT | GE | EQ | NEQ
  | ASSIGN | ASSPLUS | ASSMINUS | ASSDIV | ASSMOD | ASSMULT
  | ASSAND | ASSOR | ASSXOR | ASSLSHIFT | ASSRSHIFT
  | PREINCREMENT | POSTINCREMENT | PREDECREMENT | POSTDECREMENT
  | INLINEIF | COMMA | FUNCALL | FORALL | EXISTS | SUM
  | SIMULATE | SIMULATEREACH | EXIT | SPAWN
  | EF
  deriving DecidableEq, Repr

mutual
/-- type_t: a kind, the (labelled) subtypes, and for RANGE nodes the two
bound expressions.  The i-th label belongs to the i-th subtype (record
fields and LABEL nodes). -/
inductive TType : Type where
  | node (kind : Kind) (labels : List String) (subs : List TType)
         (range : Option (Expr × Expr)) : TType

/-- expression_t: a kind, the children, the value (for CONSTANT nodes),
an optional symbol and the attached type. -/
inductive Expr : Type where
  | node (kind : Kind) (sub : List Expr) (value : Int)
         (sym : Option Symbol) (ty : TType) : Expr

/-- symbol_t: a name with an attached type (user data is not modelled). -/
inductive Symbol : Type where
  | mk (name : String) (ty : TType) : Symbol
end

/-- The unknown primitive type (default-constructed type_t). -/
def unknownType : TType := .node .UNKNOWN [] [] none

/-- type_t::createPrimitive. -/
@[simp] def TType.createPrimitive (k : Kind) : TType := .node k [] [] none

/-- The empty expression (default-constructed expression_t handle). -/
def emptyExpr : Expr := .node .EMPTY [] 0 none unknownType

@[simp] def TType.kind : TType → Kind
  | .node k _ _ _ => k

@[simp] def TType.labels : TType → List String
  | .node _ ls _ _ => ls

@[simp] def TType.subs : TType → List TType
  | .node _ _ ss _ => ss

@[simp] def TType.rangeOf : TType → Option (Expr × Expr)
  | .node _ _ _ r => r

@[simp] def Expr.kind : Expr → Kind
  | .node k _ _ _ _ => k

@[simp] def Expr.sub : Expr → List Expr
  | .node _ s _ _ _ => s

@[simp] def Expr.value : Expr → Int
  | .node _ _ v _ _ => v

@[simp] def Expr.sym : Expr → Option Symbol
  | .node _ _ _ s _ => s

@[simp] def Expr.getType : Expr → TType
  | .node _ _ _ _ t => t

@[simp] def Symbol.name : Symbol → String
  | .mk n _ => n

@[simp] def Symbol.getType : Symbol → TType
  | .mk _ t => t

/-- expression_t::empty (null handle). -/
@[simp] def Expr.isEmptyE (e : Expr) : Bool := e.kind == .EMPTY

/-- expression_t::getSize. -/
@[simp] def Expr.size (e : Expr) : Nat := e.sub.length

/-- expression_t::operator[] / get: the i-th child.  Out-of-range access
(an assertion failure in the C++) yields the empty expression. -/
@[simp] def Expr.childD (e : Expr) (i : Nat) : Expr := e.sub.getD i emptyExpr

/-- expression_t::setType (in-place mutation becomes node rebuilding). -/
@[simp] def Expr.setType : Expr → TType → Expr
  | .node k s v sy _, t => .node k s v sy t

/-- Replace the children (models in-place mutation of the children by
recursive checking). -/
@[simp] def Expr.withSub : Expr → List Expr → Expr
  | .node k _ v sy t, s => .node k s v sy t

/-- expression_t::getSymbol; a null symbol has an empty name and unknown
type. -/
@[simp] def Expr.getSymbol (e : Expr) : Symbol := e.sym.getD (.mk "" unknownType)

/-- expression_t::createConstant.  Modelled from the spec: constants are
integer-valued literal expressions (expression.cpp is not in src/). -/
@[simp] def Expr.createConstant (v : Int) : Expr :=
  .node .CONSTANT [] v none (TType.createPrimitive .INT)

/-- expression_t::createBinary (position dropped). -/
@[simp] def Expr.createBinary (k : Kind) (a b : Expr) (t : TType) : Expr :=
  .node k [a, b] 0 none t

/-- expression_t::createNary (position dropped). -/
@[simp] def Expr.createNary (k : Kind) (sub : List Expr) (t : TType) : Expr :=
  .node k sub 0 none t

/-- Modelled from the spec: the kinds whose type node wraps a subtype and
is transparent to the shape predicates — the prefixes urgent, committed,
broadcast, hybrid, const, system-meta, ref, plus RANGE and LABEL
(spec 3: "Prefixes wrap a subtype and are transparent to most
predicates"; a bounded integer is a RANGE over int). -/
@[simp] def isWrapKind (k : Kind) : Bool :=
  k == .URGENT || k == .COMMITTED || k == .BROADCAST || k == .HYBRID ||
  k == .CONSTANT || k == .SYSTEM_META || k == .REF || k == .RANGE ||
  k == .LABEL

/-- Modelled from the spec: type_t::is(kind) — true when the kind occurs
at the root or under transparent wrappers (type.cpp is not in src/). -/
def TType.is : TType → Kind → Bool
  | .node k _ (s :: _) _, q => k == q || (isWrapKind k && s.is q)
  | .node k _ [] _, q => k == q

/-- type_t::unknown. -/
@[simp] def TType.unknown (t : TType) : Bool := t.kind == .UNKNOWN

def TType.isInteger (t : TType) : Bool := t.is .INT
def TType.isBoolean (t : TType) : Bool := t.is .BOOL
/-- Modelled from the spec: integers and booleans are integral. -/
def TType.isIntegral (t : TType) : Bool := t.is .INT || t.is .BOOL
def TType.isClock (t : TType) : Bool := t.is .CLOCK
def TType.isDouble (t : TType) : Bool := t.is .DOUBLE
def TType.isDiff (t : TType) : Bool := t.is .DIFF
def TType.isVoid (t : TType) : Bool := t.is .VOID
def TType.isScalar (t : TType) : Bool := t.is .SCALAR
def TType.isChannel (t : TType) : Bool := t.is .CHANNEL
def TType.isArray (t : TType) : Bool := t.is .ARRAY
def TType.isRecord (t : TType) : Bool := t.is .RECORD
def TType.isLocation (t : TType) : Bool := t.is .LOCATION
def TType.isProcess (t : TType) : Bool := t.is .PROCESS
def TType.isFunction (t : TType) : Bool := t.is .FUNCTION
def TType.isRange (t : TType) : Bool := t.is .RANGE

/-- Modelled from the spec: the semantic-category predicates subsume each
other (spec 3, invariant 3: a state invariant's type is bool, int,
invariant or invariant-with-rate; spec 4.5 uses the cascade
integral < invariant < guard < constraint < formula). -/
def TType.isInvariant (t : TType) : Bool := t.is .INVARIANT || t.isIntegral

def TType.isGuard (t : TType) : Bool := t.is .GUARD || t.isInvariant

def TType.isConstraint (t : TType) : Bool := t.is .CONSTRAINT || t.isGuard

def TType.isFormula (t : TType) : Bool := t.is .FORMULA || t.isConstraint

/-- Modelled from the spec: a type is constant when a const prefix wraps
it (spec 3: prefixes wrap a subtype). -/
def TType.isConstant (t : TType) : Bool := t.is .CONSTANT

/-- Modelled from the spec: negation of isConstant. -/
def TType.isNonConstant (t : TType) : Bool := !t.isConstant

/-- Modelled from the spec: strip the transparent wrappers off a type to
reach the structural node (used by the record and array accessors). -/
def TType.strip : TType → TType
  | .node k ls (s :: rest) r =>
    if isWrapKind k then s.strip else .node k ls (s :: rest) r
  | .node k ls [] r => .node k ls [] r

/-- type_t::getRecordSize: number of declared fields. -/
def TType.getRecordSize (t : TType) : Nat := t.strip.subs.length

/-- type_t::getRecordLabel. -/
def TType.getRecordLabel (t : TType) (i : Nat) : String :=
  t.strip.labels.getD i ""

/-- type_t::findIndexOf: the index of a record field label, -1 when the
label is not a field. -/
def TType.findIndexOf (t : TType) (l : String) : Int :=
  match t.strip.labels.indexOf? l with
  | some i => (i : Int)
  | none => -1

/-- type_t::getSub(i) on the stripped type (record fields). -/
def TType.getSubI (t : TType) (i : Nat) : TType :=
  t.strip.subs.getD i unknownType

/-- type_t::getSub() on the stripped type (array element). -/
def TType.getSub0 (t : TType) : TType := t.strip.subs.getD 0 unknownType

/-- type_t::getArraySize: an ARRAY node carries the element type and the
size type as its two subtypes. -/
def TType.getArraySize (t : TType) : TType := t.strip.subs.getD 1 unknownType

/-- type_t::size on the raw node (used by the FUNCALL case: a FUNCTION
type holds the return type followed by the parameter types). -/
def TType.sizeT (t : TType) : Nat := t.subs.length

/-- type_t::getLabel on the raw node (labels of a LIST initialiser
type). -/
def TType.getLabel (t : TType) (i : Nat) : String := t.labels.getD i ""

/-- type_t::getRange: the bounds of the RANGE node reached through
transparent wrappers. -/
def TType.getRange : TType → Expr × Expr
  | .node k _ (s :: _) r =>
    if k == .RANGE then r.getD (emptyExpr, emptyExpr)
    else if isWrapKind k then s.getRange
    else (emptyExpr, emptyExpr)
  | .node k _ [] r =>
    if k == .RANGE then r.getD (emptyExpr, emptyExpr)
    else (emptyExpr, emptyExpr)

/-- type_t::stripArray: strip wrappers and array constructors (the C++
alternates strip() with unfolding ARRAY nodes; the walk below visits the
same chain). -/
def TType.stripArray : TType → TType
  | .node k ls (s :: rest) r =>
    if isWrapKind k || k == .ARRAY then s.stripArray
    else .node k ls (s :: rest) r
  | .node k ls [] r => .node k ls [] r

/-- Size bound used for termination of the structural recursions that go
through strip. -/
def TType.sizeOf_strip_le : ∀ t : TType, sizeOf t.strip ≤ sizeOf t
  | .node k ls (s :: rest) r => by
    rw [TType.strip]
    split
    · have hs := TType.sizeOf_strip_le s
      simp only [TType.node.sizeOf_spec, List.cons.sizeOf_spec]
      omega
    · omega
  | .node _ _ [] _ => by
    rw [TType.strip]

/-! Structural equality of expressions, types and symbols.  Modelled
from the spec: expression_t::equal compares structurally
("compared by expression-equal, not value"; expression.cpp is not in
src/). -/

mutual
def eqT : TType → TType → Bool
  | .node k1 l1 s1 r1, .node k2 l2 s2 r2 =>
    k1 == k2 && l1 == l2 && eqTs s1 s2 && eqOR r1 r2

def eqTs : List TType → List TType → Bool
  | [], [] => true
  | x :: xs, y :: ys => eqT x y && eqTs xs ys
  | _, _ => false

def eqE : Expr → Expr → Bool
  | .node k1 s1 v1 sy1 t1, .node k2 s2 v2 sy2 t2 =>
    k1 == k2 && v1 == v2 && eqEs s1 s2 && eqOS sy1 sy2 && eqT t1 t2

def eqEs : List Expr → List Expr → Bool
  | [], [] => true
  | x :: xs, y :: ys => eqE x y && eqEs xs ys
  | _, _ => false

def eqOS : Option Symbol → Option Symbol → Bool
  | none, none => true
  | some a, some b => eqS a b
  | _, _ => false

def eqS : Symbol → Symbol → Bool
  | .mk n1 t1, .mk n2 t2 => n1 == n2 && eqT t1 t2

def eqOR : Option (Expr × Expr) → Option (Expr × Expr) → Bool
  | none, none => true
  | some (a1, b1), some (a2, b2) => eqE a1 a2 && eqE b1 b2
  | _, _ => false
end

/-! Expression-level type predicates (the static helpers at the top of
typechecker.cpp). -/

def isCost (e : Expr) : Bool := e.getType.is .COST

def isVoidE (e : Expr) : Bool := e.getType.isVoid

def isDoubleE (e : Expr) : Bool := e.getType.isDouble

def isIntegerE (e : Expr) : Bool := e.getType.isInteger

def isBound (e : Expr) : Bool := e.getType.isInteger || e.getType.isDouble

def isIntegralE (e : Expr) : Bool := e.getType.isIntegral

def isClockE (e : Expr) : Bool := e.getType.isClock

def isDiffE (e : Expr) : Bool := e.getType.isDiff

def isDoubleValue (e : Expr) : Bool := isDoubleE e || isClockE e || isDiffE e

def isNumber (e : Expr) : Bool := isDoubleValue e || isIntegralE e

def isConstantInteger (e : Expr) : Bool :=
  e.kind == .CONSTANT && isIntegerE e

def isConstantDouble (e : Expr) : Bool :=
  e.kind == .CONSTANT && isDoubleE e

def isInvariantE (e : Expr) : Bool := e.getType.isInvariant

def isGuardE (e : Expr) : Bool := e.getType.isGuard

def isConstraintE (e : Expr) : Bool := e.getType.isConstraint

def isFormulaE (e : Expr) : Bool := e.getType.isFormula

/-- isInvariantWR: a valid invariant-with-rate expression. -/
def isInvariantWR (e : Expr) : Bool :=
  isInvariantE e || e.getType.is .INVARIANT_WR

mutual
/-- isAssignable on types (raw kinds and raw children, as in the C++). -/
def isAssignable : TType → Bool
  | .node k _ ss _ =>
    match k with
    | .INT | .BOOL | .DOUBLE | .CLOCK | .COST | .SCALAR => true
    | .RECORD => isAssignableList ss
    | _ =>
      -- ARRAY and the default case both recurse into the first subtype
      match ss with
      | s :: _ => isAssignable s
      | [] => false

/-- The RECORD loop of isAssignable. -/
def isAssignableList : List TType → Bool
  | [] => true
  | s :: rest => isAssignable s && isAssignableList rest
end

/-- channelCapability: 0 for urgent, 1 for broadcast, 2 otherwise. -/
def channelCapability (t : TType) : Nat :=
  if t.is .URGENT then 0
  else if t.is .BROADCAST then 1
  else 2

/-- isSameScalarType: name equivalence of scalar types.  Note the second
branch tests t2 against the expression kind EF where REF was clearly
intended (both live in the shared constant enumeration in the C++), so a
REF prefix is only stripped from the first argument.  The C++ accesses
t1[0]/t2[0] unconditionally (asserting); a missing subtype yields false
here. -/
def isSameScalarType : TType → TType → Bool
  | .node k1 l1 s1 r1, .node k2 l2 s2 r2 =>
    if k1 == .REF || k1 == .CONSTANT || k1 == .SYSTEM_META then
      match s1 with
      | u :: _ => isSameScalarType u (.node k2 l2 s2 r2)
      | [] => false
    else if k2 == .EF || k2 == .CONSTANT || k2 == .SYSTEM_META then
      match s2 with
      | u :: _ => isSameScalarType (.node k1 l1 s1 r1) u
      | [] => false
    else if k1 == .LABEL && k2 == .LABEL then
      (l1.getD 0 "" == l2.getD 0 "") &&
      (match s1, s2 with
       | u :: _, v :: _ => isSameScalarType u v
       | _, _ => false)
    else if k1 == .SCALAR && k2 == .SCALAR then true
    else if k1 == .RANGE && k2 == .RANGE then
      (match s1, s2 with
       | u :: _, v :: _ => isSameScalarType u v
       | _, _ => false) &&
      (match r1, r2 with
       | some (lo1, hi1), some (lo2, hi2) => eqE lo1 lo2 && eqE hi1 hi2
       | _, _ => false)
    else false
termination_by t1 t2 => sizeOf t1 + sizeOf t2

mutual
/-- TypeChecker::areEquivalent: structural equivalence ignoring CONST,
SYSTEM_META and REF, with name equivalence for scalars. -/
def areEquivalent (a b : TType) : Bool :=
  if a.isInteger && b.isInteger then
    !a.is .RANGE || !b.is .RANGE ||
    (eqE a.getRange.1 b.getRange.1 && eqE a.getRange.2 b.getRange.2)
  else if a.isBoolean && b.isBoolean then true
  else if a.isClock && b.isClock then true
  else if a.isChannel && b.isChannel then
    channelCapability a == channelCapability b
  else if a.isRecord && b.isRecord then
    -- getRecordSize / getRecordLabel / getSub work on the stripped type
    recordFieldsEquivalent a.strip.subs b.strip.subs
      a.strip.labels b.strip.labels
  else if a.isArray && b.isArray then
    match hsa : a.strip, hsb : b.strip with
    | .node _ _ (ae :: arest) _, .node _ _ (be :: brest) _ =>
      let asz := arest.headD unknownType
      let bsz := brest.headD unknownType
      if asz.isInteger && bsz.isInteger then
        eqE asz.getRange.1 bsz.getRange.1 &&
        eqE asz.getRange.2 bsz.getRange.2 &&
        areEquivalent ae be
      else if asz.isScalar && bsz.isScalar then
        isSameScalarType asz bsz && areEquivalent ae be
      else false
    | _, _ => false
  else if a.isScalar && b.isScalar then isSameScalarType a b
  else if a.isDouble && b.isDouble then true
  else false
  termination_by sizeOf a + sizeOf b
  decreasing_by
  · have ha := TType.sizeOf_strip_le a
    have hb := TType.sizeOf_strip_le b
    rcases hsa : a.strip with ⟨ka, la, sa, ra⟩
    rcases hsb : b.strip with ⟨kb, lb, sb, rb⟩
    rw [hsa] at ha; rw [hsb] at hb
    simp only [TType.subs, TType.labels, TType.node.sizeOf_spec] at *
    omega
  · have ha := TType.sizeOf_strip_le a
    have hb := TType.sizeOf_strip_le b
    rw [hsa] at ha; rw [hsb] at hb
    simp only [TType.node.sizeOf_spec, List.cons.sizeOf_spec] at *
    omega

/-- The record loop of areEquivalent: equal arity, equal field labels in
order, equivalent field types. -/
def recordFieldsEquivalent :
    List TType → List TType → List String → List String → Bool
  | [], [], _, _ => true
  | x :: xs, y :: ys, lx, ly =>
    (lx.headD "" == ly.headD "") && areEquivalent x y &&
    recordFieldsEquivalent xs ys lx.tail ly.tail
  | _, _, _, _ => false
  termination_by xs ys lx ly => sizeOf xs + sizeOf ys
  decreasing_by
  · simp only [List.cons.sizeOf_spec]; omega
  · simp only [List.cons.sizeOf_spec]; omega
end

/-- TypeChecker::areAssignmentCompatible. -/
def areAssignmentCompatible (lvalue rvalue : TType) (init : Bool) : Bool :=
  if (if init
      then lvalue.isClock && rvalue.isDouble
      else (lvalue.isClock || lvalue.isDouble) &&
           (rvalue.isIntegral || rvalue.isDouble || rvalue.isClock)) then
    true
  else if lvalue.isIntegral && rvalue.isIntegral then true
  else areEquivalent lvalue rvalue

/-- TypeChecker::areEqCompatible. -/
def areEqCompatible (t1 t2 : TType) : Bool :=
  if t1.isIntegral && t2.isIntegral then true
  else if t1.is .PROCESSVAR && t2.is .PROCESSVAR then true
  else areEquivalent t1 t2

/-- TypeChecker::areInlineIfCompatible. -/
def areInlineIfCompatible (t1 t2 : TType) : Bool :=
  if t1.isIntegral && t2.isIntegral then true
  else areEquivalent t1 t2

/-- TypeChecker::isModifiableLValue.  The C++ accesses children
unconditionally where the grammar guarantees them; a missing child
yields false here. -/
def isModifiableLValue : Expr → Bool
  | .node .IDENTIFIER _ _ _ t => t.isNonConstant
  | .node .DOT (x :: _) _ _ _ =>
    if x.getType.isProcess then false else isModifiableLValue x
  | .node .ARRAY (x :: _) _ _ _ => isModifiableLValue x
  | .node .PREINCREMENT _ _ _ _ => true
  | .node .PREDECREMENT _ _ _ _ => true
  | .node .ASSIGN _ _ _ _ => true
  | .node .ASSPLUS _ _ _ _ => true
  | .node .ASSMINUS _ _ _ _ => true
  | .node .ASSDIV _ _ _ _ => true
  | .node .ASSMOD _ _ _ _ => true
  | .node .ASSMULT _ _ _ _ => true
  | .node .ASSAND _ _ _ _ => true
  | .node .ASSOR _ _ _ _ => true
  | .node .ASSXOR _ _ _ _ => true
  | .node .ASSLSHIFT _ _ _ _ => true
  | .node .ASSRSHIFT _ _ _ _ => true
  | .node .INLINEIF (_ :: t :: f :: _) _ _ _ =>
    isModifiableLValue t && isModifiableLValue f &&
    areEquivalent t.getType f.getType
  | .node .COMMA (_ :: b :: _) _ _ _ => isModifiableLValue b
  | _ => false

/-- TypeChecker::isLValue. -/
def isLValue : Expr → Bool
  | .node .IDENTIFIER _ _ _ _ => true
  | .node .PREINCREMENT _ _ _ _ => true
  | .node .PREDECREMENT _ _ _ _ => true
  | .node .ASSIGN _ _ _ _ => true
  | .node .ASSPLUS _ _ _ _ => true
  | .node .ASSMINUS _ _ _ _ => true
  | .node .ASSDIV _ _ _ _ => true
  | .node .ASSMOD _ _ _ _ => true
  | .node .ASSMULT _ _ _ _ => true
  | .node .ASSAND _ _ _ _ => true
  | .node .ASSOR _ _ _ _ => true
  | .node .ASSXOR _ _ _ _ => true
  | .node .ASSLSHIFT _ _ _ _ => true
  | .node .ASSRSHIFT _ _ _ _ => true
  | .node .DOT (x :: _) _ _ _ => isLValue x
  | .node .ARRAY (x :: _) _ _ _ => isLValue x
  | .node .INLINEIF (_ :: t :: f :: _) _ _ _ =>
    isLValue t && isLValue f && areEquivalent t.getType f.getType
  | .node .COMMA (_ :: b :: _) _ _ _ => isLValue b
  | _ => false

/-- A diagnostic: an error or a warning with its message (positions and
the fixed "(typechecking)" category are dropped). -/
inductive Diag where
  | error (msg : String) : Diag
  | warning (msg : String) : Diag
  deriving DecidableEq, Repr

/-- The checker context: the set of compile-time computable symbols
(CompileTimeComputableValues), identified by name. -/
structure Ctx where
  computable : List String

mutual
/-- Modelled from the spec: expression_t::collectPossibleReads
(expression.cpp is not in src/) — the symbols an evaluation may read:
every symbol attached to a node of the expression; an identifier without
a symbol contributes the null symbol (modelled as none).  Reads of
function bodies reached through calls are not modelled; the function
symbol itself is collected, as the computability test treats function
symbols as computable. -/
def possibleReads : Expr → List (Option Symbol)
  | .node k sub _ sy _ =>
    (if k == .IDENTIFIER && sy.isNone then [none]
     else match sy with
          | some s => [some s]
          | none => []) ++ possibleReadsList sub

def possibleReadsList : List Expr → List (Option Symbol)
  | [] => []
  | e :: rest => possibleReads e ++ possibleReadsList rest
end

/-- TypeChecker::isCompileTimeComputable: every possibly-read symbol is a
function symbol or a member of the computable set. -/
def isCompileTimeComputable (ctx : Ctx) (e : Expr) : Bool :=
  (possibleReads e).all fun os =>
    match os with
    | some s => s.getType.isFunction || ctx.computable.contains s.name
    | none => false

/-- Modelled from the spec: the expression kinds whose evaluation may
write a variable (spec 4.5 and 7: assignments, increments, decrements,
function calls, dynamic constructs are not side-effect free). -/
def isWriteKind (k : Kind) : Bool :=
  k == .ASSIGN || k == .ASSPLUS || k == .ASSMINUS || k == .ASSDIV ||
  k == .ASSMOD || k == .ASSMULT || k == .ASSAND || k == .ASSOR ||
  k == .ASSXOR || k == .ASSLSHIFT || k == .ASSRSHIFT ||
  k == .PREINCREMENT || k == .POSTINCREMENT ||
  k == .PREDECREMENT || k == .POSTDECREMENT ||
  k == .FUNCALL || k == .SPAWN || k == .EXIT

mutual
/-- Modelled from the spec: expression_t::changesAnyVariable
(expression.cpp is not in src/) — some node of the expression is of a
writing kind. -/
def changesAnyVariable : Expr → Bool
  | .node k sub _ _ _ => isWriteKind k || changesAnyVariableList sub

def changesAnyVariableList : List Expr → Bool
  | [] => false
  | e :: rest => changesAnyVariable e || changesAnyVariableList rest
end

/-- TypeChecker::isUniqueReference: an lvalue whose identity is fixed at
compile time. -/
def isUniqueReference (ctx : Ctx) : Expr → Bool
  | .node .IDENTIFIER _ _ _ _ => true
  | .node .DOT (x :: _) _ _ _ => isUniqueReference ctx x
  | .node .ARRAY (x :: i :: _) _ _ _ =>
    isUniqueReference ctx x && isCompileTimeComputable ctx i
  | .node .PREINCREMENT (x :: _) _ _ _ => isUniqueReference ctx x
  | .node .PREDECREMENT (x :: _) _ _ _ => isUniqueReference ctx x
  | .node .ASSIGN (x :: _) _ _ _ => isUniqueReference ctx x
  | .node .ASSPLUS (x :: _) _ _ _ => isUniqueReference ctx x
  | .node .ASSMINUS (x :: _) _ _ _ => isUniqueReference ctx x
  | .node .ASSDIV (x :: _) _ _ _ => isUniqueReference ctx x
  | .node .ASSMOD (x :: _) _ _ _ => isUniqueReference ctx x
  | .node .ASSMULT (x :: _) _ _ _ => isUniqueReference ctx x
  | .node .ASSAND (x :: _) _ _ _ => isUniqueReference ctx x
  | .node .ASSOR (x :: _) _ _ _ => isUniqueReference ctx x
  | .node .ASSXOR (x :: _) _ _ _ => isUniqueReference ctx x
  | .node .ASSLSHIFT (x :: _) _ _ _ => isUniqueReference ctx x
  | .node .ASSRSHIFT (x :: _) _ _ _ => isUniqueReference ctx x
  | .node .INLINEIF _ _ _ _ => false
  | .node .COMMA (_ :: b :: _) _ _ _ => isUniqueReference ctx b
  | _ => false

/-- TypeChecker::isParameterCompatible. -/
def isParameterCompatible (paramType : TType) (arg : Expr) : Bool :=
  let ref := paramType.is .REF
  let constant := paramType.isConstant
  let lvalue := isModifiableLValue arg
  let argType := arg.getType
  if ref && !constant && !lvalue then false
  else if paramType.isChannel && argType.isChannel then
    decide (channelCapability paramType ≤ channelCapability argType)
  else if ref && lvalue then areEquivalent argType paramType
  else areAssignmentCompatible paramType argType false

/-- TypeChecker::checkParameterCompatible: isParameterCompatible plus the
"Incompatible argument" error. -/
def checkParameterCompatible (paramType : TType) (arg : Expr) :
    Bool × List Diag :=
  if !isParameterCompatible paramType arg then
    (false, [.error "$Incompatible_argument"])
  else (true, [])

/-- TypeChecker::checkNrOfRuns. -/
def checkNrOfRuns (ctx : Ctx) (runs : Expr) : Bool × List Diag :=
  if !isCompileTimeComputable ctx runs then
    (false, [.error "$Must_be_computable_at_compile_time"])
  else if !isConstantInteger runs then
    (false, [.error "$Integer_expected"])
  else (true, [])

/-- TypeChecker::checkBoundTypeOrBoundedExpr. -/
def checkBoundTypeOrBoundedExpr (boundTypeOrExpr : Expr) :
    Bool × List Diag :=
  if !isConstantInteger boundTypeOrExpr && !isClockE boundTypeOrExpr then
    (false, [.error "$Clock_expected"])
  else (true, [])

/-- TypeChecker::checkBound. -/
def checkBound (ctx : Ctx) (bound : Expr) : Bool × List Diag :=
  if !isCompileTimeComputable ctx bound then
    (false, [.error "$Must_be_computable_at_compile_time"])
  else if !isIntegralE bound then
    (false, [.error "$Integer_expected"])
  else (true, [])

/-- TypeChecker::checkPredicate. -/
def checkPredicate (predicate : Expr) : Bool × List Diag :=
  if !isIntegralE predicate && !isConstraintE predicate then
    (false, [.error "$Boolean_expected"])
  else if changesAnyVariable predicate then
    (false, [.error "$Property_must_be_side-effect_free"])
  else (true, [])

/-- TypeChecker::checkMonitoredExpr. -/
def checkMonitoredExpr (e : Expr) : Bool × List Diag :=
  if !isIntegralE e && !isClockE e && !isDoubleValue e &&
     !e.getType.is .DOUBLEINVGUARD && !isConstraintE e then
    (false, [.error "$Integer_or_clock_expected"])
  else if changesAnyVariable e then
    (false, [.error "$Property_must_be_side-effect_free"])
  else (true, [])

/-- TypeChecker::checkIgnoredValue: warn about expressions with no
effect (EXIT excepted); for a comma whose head has an effect the check
recurses into the tail. -/
def checkIgnoredValue (e : Expr) : List Diag :=
  if e.kind != .EXIT && !(changesAnyVariable e) then
    [.warning "$Expression_does_not_have_any_effect"]
  else if e.kind == .COMMA then
    match e with
    | .node _ (_ :: b :: _) _ _ _ => checkIgnoredValue b
    | _ => []
  else []

mutual
/-- Node-plus-arity count of an expression, the termination measure for
the initialiser checker. -/
def emSize : Expr → Nat
  | .node _ sub _ _ _ => 1 + sub.length + emSizeList sub

def emSizeList : List Expr → Nat
  | [] => 0
  | e :: rest => emSize e + emSizeList rest
end

/-- Entry-list measure for the record-initialiser loop. -/
def pSize : List (String × Expr) → Nat
  | [] => 0
  | (_, e) :: rest => emSize e + pSize rest

def emSize_pos : ∀ e : Expr, 1 ≤ emSize e
  | .node _ sub _ _ _ => by rw [emSize]; omega

/-- The labelled entries of a LIST initialiser: the i-th child paired
with the i-th label of the LIST type, for i below the type's size (the
C++ loops over the type size and indexes the children; iteration stops
at the children that actually exist). -/
def listEntries (lt : TType) (i : Nat) : List Expr → List (String × Expr)
  | [] => []
  | c :: rest =>
    if i < lt.sizeT then (lt.getLabel i, c) :: listEntries lt (i + 1) rest
    else []

def pSize_listEntries_le :
    ∀ (lt : TType) (i : Nat) (sub : List Expr),
      pSize (listEntries lt i sub) + (listEntries lt i sub).length ≤
        emSizeList sub + sub.length
  | _, _, [] => by rw [listEntries]; simp [pSize]
  | lt, i, c :: rest => by
    rw [listEntries]
    have h := pSize_listEntries_le lt (i + 1) rest
    have hc := emSize_pos c
    split
    · simp only [pSize, List.length_cons, emSizeList]
      omega
    · simp only [pSize, List.length_cons, emSizeList, List.length_nil]
      omega

def emSize_sub_lt : ∀ e : Expr, emSizeList e.sub + e.sub.length < emSize e
  | .node _ sub _ _ _ => by simp only [Expr.sub, emSize]; omega

/-- Accumulator of the record-initialiser loop: the (reordered) field
slots, the running field index, and the diagnostics so far. -/
structure InitAcc where
  result : List Expr
  current : Int
  ds : List Diag

mutual
/-- TypeChecker::checkInitialiser: checks an initialiser against the
declared type; record initialisers are reordered to the declared field
order and incomplete ones are reported. -/
def checkInitialiser (ctx : Ctx) (t : TType) (init : Expr) :
    Expr × List Diag :=
  if areAssignmentCompatible t init.getType true then (init, [])
  else if t.isArray && init.kind == .LIST then
    let res := initArrayLoop ctx t.getSub0 init.getType 0 init.sub
    (Expr.createNary .LIST res.1 t, res.2)
  else if t.isRecord || init.kind == .LIST then
    let acc := initRecordLoop ctx t (listEntries init.getType 0 init.sub)
      ⟨List.replicate t.getRecordSize emptyExpr, 0, []⟩
    -- check that all fields do have an initialiser (first hole reported)
    let incomplete :=
      if acc.result.any (·.isEmptyE) then [Diag.error "$Incomplete_initialiser"]
      else []
    (Expr.createNary .LIST acc.result t, acc.ds ++ incomplete)
  else (init, [.error "$Invalid_initialiser"])
  termination_by emSize init
  decreasing_by
  · exact emSize_sub_lt init
  · have h := pSize_listEntries_le init.getType 0 init.sub
    have h2 := emSize_sub_lt init
    omega

/-- The array branch of checkInitialiser: each child is checked against
the element type; labelled entries are reported.  The C++ loops over the
LIST type's size; children beyond it keep the empty expression, and the
iteration covers the children that exist. -/
def initArrayLoop (ctx : Ctx) (subtype : TType) (lt : TType) (i : Nat) :
    List Expr → List Expr × List Diag
  | [] => ([], [])
  | c :: rest =>
    if i < lt.sizeT then
      let d1 : List Diag :=
        if lt.getLabel i != "" then
          [.error "$Field_name_not_allowed_in_array_initialiser"]
        else []
      let ce := checkInitialiser ctx subtype c
      let res := initArrayLoop ctx subtype lt (i + 1) rest
      (ce.1 :: res.1, d1 ++ ce.2 ++ res.2)
    else
      let res := initArrayLoop ctx subtype lt (i + 1) rest
      (emptyExpr :: res.1, res.2)
  termination_by sub => emSizeList sub + sub.length
  decreasing_by
  all_goals simp only [emSizeList, pSize, List.length_cons]
  all_goals omega

/-- The record branch of checkInitialiser: a labelled entry selects the
field with that label, an unlabelled entry the field after the previous
one; unknown fields and overflow break the loop, a duplicate entry is
skipped. -/
def initRecordLoop (ctx : Ctx) (t : TType) :
    List (String × Expr) → InitAcc → InitAcc
  | [], acc => acc
  | (label, child) :: rest, acc =>
    let cur : Int := if label != "" then t.findIndexOf label else acc.current
    if label != "" && cur == -1 then
      { acc with ds := acc.ds ++ [.error "$Unknown_field"] }
    else if (t.getRecordSize : Int) ≤ cur then
      { acc with ds := acc.ds ++ [.error "$Too_many_elements_in_initialiser"] }
    else if !(acc.result.getD cur.toNat emptyExpr).isEmptyE then
      initRecordLoop ctx t rest
        { acc with ds := acc.ds ++ [.error "$Multiple_initialisers_for_field"],
                   current := cur + 1 }
    else
      let ce := checkInitialiser ctx (t.getSubI cur.toNat) child
      initRecordLoop ctx t rest
        { result := acc.result.set cur.toNat ce.1,
          current := cur + 1,
          ds := acc.ds ++ ce.2 }
  termination_by entries acc => pSize entries + entries.length
  decreasing_by
  all_goals simp only [emSizeList, pSize, List.length_cons]
  all_goals omega
end

/-- Result of one dispatch case of checkExpression: either a computed
type for the common tail (possibly unknown, which the tail turns into a
type error), or an immediate return true/false. -/
inductive CaseRes where
  | typed (t : TType) (ds : List Diag) : CaseRes
  | retTrue (ds : List Diag) : CaseRes
  | retFalse (ds : List Diag) : CaseRes

/-- The monitored-expression loop of the SIMULATE cases: stops at the
first failing expression. -/
def checkMonitoredList : List Expr → Bool × List Diag
  | [] => (true, [])
  | m :: rest =>
    let r := checkMonitoredExpr m
    if !r.1 then (false, r.2)
    else
      let rr := checkMonitoredList rest
      (rr.1, r.2 ++ rr.2)

/-- The argument loop of the FUNCALL case: the declared parameter types
(the function type's subtypes after the return type) paired with the
argument children; every pair is checked (no short-circuit), the
conjunction is returned.  The C++ indexes the arguments by parameter
count (undefined when a call has fewer arguments than parameters); the
zip stops at the children that exist. -/
def funcallArgsCheck : List TType → List Expr → Bool × List Diag
  | p :: ps, a :: rest =>
    let r := checkParameterCompatible p a
    let rr := funcallArgsCheck ps rest
    (r.1 && rr.1, r.2 ++ rr.2)
  | _, _ => (true, [])

/-- The dispatch switch of TypeChecker::checkExpression for the cases
that need no recursion, operating on the node whose children have
already been checked (and type-annotated).  The modelled cases are
FRACTION, PLUS, MINUS, AND, OR, XOR, EQ, NEQ, GE/GT/LE/LT,
MULT/DIV/MIN/MAX, MOD and the bit operators, NOT, UNARY_MINUS, RATE,
the assignment operators, increment/decrement, INLINEIF, COMMA, ARRAY,
the typing parts of FORALL/EXISTS/SUM, and SIMULATE/SIMULATEREACH; the
remaining C++ cases (dynamic constructs, the math library, the temporal,
probabilistic and timed-game properties) are outside the modelled
fragment and fall to the C++ default, which returns true. -/
def caseOf (ctx : Ctx) (e : Expr) : CaseRes :=
  let a := e.childD 0
  let b := e.childD 1
  match e.kind with
  | .FRACTION =>
    if isIntegralE a && isIntegralE b then
      .typed (TType.createPrimitive .FRACTION) []
    else .typed unknownType []
  | .PLUS =>
    if isIntegralE a && isIntegralE b then
      .typed (TType.createPrimitive .INT) []
    else if (isIntegerE a && isClockE b) || (isClockE a && isIntegerE b) then
      .typed (TType.createPrimitive .CLOCK) []
    else if (isDiffE a && isIntegerE b) || (isIntegerE a && isDiffE b) then
      .typed (TType.createPrimitive .DIFF) []
    else if isNumber a && isNumber b then
      .typed (TType.createPrimitive .DOUBLE) []
    else .typed unknownType []
  | .MINUS =>
    if isIntegralE a && isIntegralE b then
      .typed (TType.createPrimitive .INT) []
    else if isClockE a && isIntegerE b then
      .typed (TType.createPrimitive .CLOCK) []
    else if (isDiffE a && isIntegerE b) || (isIntegerE a && isDiffE b) ||
            (isClockE a && isClockE b) then
      .typed (TType.createPrimitive .DIFF) []
    else if isNumber a && isNumber b then
      .typed (TType.createPrimitive .DOUBLE) []
    else .typed unknownType []
  | .AND =>
    if isIntegralE a && isIntegralE b then
      .typed (TType.createPrimitive .BOOL) []
    else if isInvariantE a && isInvariantE b then
      .typed (TType.createPrimitive .INVARIANT) []
    else if isInvariantWR a && isInvariantWR b then
      .typed (TType.createPrimitive .INVARIANT_WR) []
    else if isGuardE a && isGuardE b then
      .typed (TType.createPrimitive .GUARD) []
    else if isConstraintE a && isConstraintE b then
      .typed (TType.createPrimitive .CONSTRAINT) []
    else if isFormulaE a && isFormulaE b then
      .typed (TType.createPrimitive .FORMULA) []
    else .typed unknownType []
  | .OR =>
    if isIntegralE a && isIntegralE b then
      .typed (TType.createPrimitive .BOOL) []
    else if isIntegralE a && isInvariantE b then
      .typed (TType.createPrimitive .INVARIANT) []
    else if isInvariantE a && isIntegralE b then
      .typed (TType.createPrimitive .INVARIANT) []
    else if isIntegralE a && isInvariantWR b then
      .typed (TType.createPrimitive .INVARIANT_WR) []
    else if isInvariantWR a && isIntegralE b then
      .typed (TType.createPrimitive .INVARIANT_WR) []
    else if isIntegralE a && isGuardE b then
      .typed (TType.createPrimitive .GUARD) []
    else if isGuardE a && isIntegralE b then
      .typed (TType.createPrimitive .GUARD) []
    else if isConstraintE a && isConstraintE b then
      .typed (TType.createPrimitive .CONSTRAINT) []
    else .typed unknownType []
  | .XOR =>
    if isIntegralE a && isIntegralE b then
      .typed (TType.createPrimitive .BOOL) []
    else .typed unknownType []
  | .EQ =>
    if (isClockE a && isClockE b) || (isClockE a && isIntegerE b) ||
       (isIntegerE a && isClockE b) || (isDiffE a && isIntegerE b) ||
       (isIntegerE a && isDiffE b) then
      .typed (TType.createPrimitive .GUARD) []
    else if areEqCompatible a.getType b.getType then
      .typed (TType.createPrimitive .BOOL) []
    else if (a.getType.is .RATE && (isIntegralE b || isDoubleValue b)) ||
            ((isIntegralE a || isDoubleValue a) && b.getType.is .RATE) then
      .typed (TType.createPrimitive .INVARIANT_WR) []
    else if isNumber a && isNumber b then
      .typed (TType.createPrimitive .BOOL) []
    else .typed unknownType []
  | .NEQ =>
    if areEqCompatible a.getType b.getType then
      .typed (TType.createPrimitive .BOOL) []
    else if (isClockE a && isClockE b) || (isClockE a && isIntegerE b) ||
            (isIntegerE a && isClockE b) || (isDiffE a && isIntegerE b) ||
            (isIntegerE a && isDiffE b) then
      .typed (TType.createPrimitive .CONSTRAINT) []
    else if isNumber a && isNumber b then
      .typed (TType.createPrimitive .BOOL) []
    else .typed unknownType []
  | .GE | .GT | .LE | .LT =>
    if isIntegralE a && isIntegralE b then
      .typed (TType.createPrimitive .BOOL) []
    else if (isClockE a && isClockE b) || (isClockE a && isBound b) ||
            (isClockE b && isBound a) || (isDiffE a && isBound b) ||
            (isDiffE b && isBound a) then
      .typed (TType.createPrimitive .INVARIANT) []
    else if (isClockE a && isIntegerE b) || (isIntegerE a && isClockE b) then
      .typed (TType.createPrimitive .GUARD) []
    else if isNumber a && isNumber b then
      .typed (TType.createPrimitive .BOOL) []
    else .typed unknownType []
  | .MULT | .DIV | .MIN | .MAX =>
    if isIntegralE a && isIntegralE b then
      .typed (TType.createPrimitive .INT) []
    else if isNumber a && isNumber b then
      .typed (TType.createPrimitive .DOUBLE) []
    else .typed unknownType []
  | .MOD | .BIT_AND | .BIT_OR | .BIT_XOR | .BIT_LSHIFT | .BIT_RSHIFT =>
    if isIntegralE a && isIntegralE b then
      .typed (TType.createPrimitive .INT) []
    else .typed unknownType []
  | .NOT =>
    if isIntegralE a then .typed (TType.createPrimitive .BOOL) []
    else if isConstraintE a then .typed (TType.createPrimitive .CONSTRAINT) []
    else .typed unknownType []
  | .UNARY_MINUS =>
    if isIntegralE a then .typed (TType.createPrimitive .INT) []
    else if isNumber a then .typed (TType.createPrimitive .DOUBLE) []
    else .typed unknownType []
  | .RATE =>
    if isCost a || isClockE a then .typed (TType.createPrimitive .RATE) []
    else .typed unknownType []
  | .ASSIGN =>
    if !areAssignmentCompatible a.getType b.getType false then
      .retFalse [.error "$Incompatible_types"]
    else if !isModifiableLValue a then
      .retFalse [.error "$Left_hand_side_value_expected"]
    else .typed a.getType []
  | .ASSPLUS =>
    -- errors are reported but the case falls through to the type
    -- assignment (no early return, unlike ASSIGN and the rest)
    let ds :=
      if (!isIntegerE a && !isCost a) || !isIntegralE b then
        [Diag.error "$Increment_operator_can_only_be_used_for_integers_and_cost_variables"]
      else if !isModifiableLValue a then
        [Diag.error "$Left_hand_side_value_expected"]
      else []
    .typed a.getType ds
  | .ASSMINUS | .ASSDIV | .ASSMOD | .ASSMULT | .ASSAND | .ASSOR
  | .ASSXOR | .ASSLSHIFT | .ASSRSHIFT =>
    if !isIntegralE a || !isIntegralE b then
      .retFalse [.error "$Non-integer_types_must_use_regular_assignment_operator"]
    else if !isModifiableLValue a then
      .retFalse [.error "$Left_hand_side_value_expected"]
    else .typed a.getType []
  | .POSTINCREMENT | .PREINCREMENT | .POSTDECREMENT | .PREDECREMENT =>
    if !isModifiableLValue a then
      .retFalse [.error "$Left_hand_side_value_expected"]
    else if !isIntegerE a then
      .retFalse [.error "$Integer_expected"]
    else .typed (TType.createPrimitive .INT) []
  | .INLINEIF =>
    if !isIntegralE a then
      .retFalse [.error "$First_argument_of_inline_if_must_be_an_integer"]
    else if !areInlineIfCompatible b.getType (e.childD 2).getType then
      .retFalse [.error "$Incompatible_arguments_to_inline_if"]
    else .typed b.getType []
  | .COMMA =>
    if !isAssignable a.getType && !isVoidE a then
      .retFalse [.error "$Incompatible_type_for_comma_expression"]
    else if !isAssignable b.getType && !isVoidE b then
      .retFalse [.error "$Incompatible_type_for_comma_expression"]
    else .typed b.getType (checkIgnoredValue a)
  | .ARRAY =>
    let arg1 := a.getType
    let arg2 := b.getType
    if !arg1.isArray then .retFalse [.error "$Array_expected"]
    else
      let t := arg1.getSub0
      if arg1.getArraySize.isInteger && arg2.isIntegral then .typed t []
      else if arg1.getArraySize.isScalar && arg2.isScalar then
        if !isSameScalarType arg1.getArraySize b.getType then
          .retFalse [.error "$Incompatible_type"]
        else .typed t []
      else
        -- error reported, but the case still reaches the common tail
        .typed t [.error "$Incompatible_type"]
  | .FORALL =>
    let tds :=
      if isIntegralE b then (TType.createPrimitive .BOOL, ([] : List Diag))
      else if isInvariantE b then (TType.createPrimitive .INVARIANT, [])
      else if isInvariantWR b then (TType.createPrimitive .INVARIANT_WR, [])
      else if isGuardE b then (TType.createPrimitive .GUARD, [])
      else if isConstraintE b then (TType.createPrimitive .CONSTRAINT, [])
      else (unknownType, [.error "$Boolean_expected"])
    let sds :=
      if changesAnyVariable b then
        [Diag.error "$Expression_must_be_side-effect_free"]
      else []
    .typed tds.1 (tds.2 ++ sds)
  | .EXISTS =>
    let tds :=
      if isIntegralE b then (TType.createPrimitive .BOOL, ([] : List Diag))
      else if isConstraintE b then (TType.createPrimitive .CONSTRAINT, [])
      else (unknownType, [.error "$Boolean_expected"])
    let sds :=
      if changesAnyVariable b then
        [Diag.error "$Expression_must_be_side-effect_free"]
      else []
    .typed tds.1 (tds.2 ++ sds)
  | .SUM =>
    let tds :=
      if isIntegralE b then (TType.createPrimitive .INT, ([] : List Diag))
      else if isNumber b then (TType.createPrimitive .DOUBLE, [])
      else (unknownType, [.error "$Number_expected"])
    let sds :=
      if changesAnyVariable b then
        [Diag.error "$Expression_must_be_side-effect_free"]
      else []
    .typed tds.1 (tds.2 ++ sds)
  | .SIMULATE | .SIMULATEREACH =>
    let r0 := checkNrOfRuns ctx a
    let runBad := r0.1 && decide (a.value ≤ 0)
    let ds0 := r0.2 ++ (if runBad then [Diag.error "$Invalid_run_count"] else [])
    let ok0 := r0.1 && !runBad
    let r1 := checkBoundTypeOrBoundedExpr b
    let r2 := checkBound ctx (e.childD 2)
    let ds2 := ds0 ++ r1.2 ++ r2.2
    let ok2 := ok0 && r1.1 && r2.1
    if !ok2 then .retFalse ds2
    else if e.kind == .SIMULATEREACH then
      let nb := e.size - 2
      let rp := checkPredicate (e.childD nb)
      let rr := checkNrOfRuns ctx (e.childD (nb + 1))
      if !(rp.1 && rr.1) then .retFalse (ds2 ++ rp.2 ++ rr.2)
      else
        let rm := checkMonitoredList ((e.sub.take nb).drop 3)
        if !rm.1 then .retFalse (ds2 ++ rp.2 ++ rr.2 ++ rm.2)
        else .typed (TType.createPrimitive .FORMULA) (ds2 ++ rp.2 ++ rr.2 ++ rm.2)
    else
      let rm := checkMonitoredList (e.sub.drop 3)
      if !rm.1 then .retFalse (ds2 ++ rm.2)
      else .typed (TType.createPrimitive .FORMULA) (ds2 ++ rm.2)
  | _ => .retTrue []

/-- The type of the bound symbol of a quantifier: the symbol attached
to the first child (expr[0].getSymbol().getType()). -/
def quantSymType : List Expr → Option TType
  | (.node _ _ _ (some (.mk _ st)) _) :: _ => some st
  | _ => none

def quantSymType_sizeOf_lt :
    ∀ (l : List Expr) (st : TType), quantSymType l = some st →
      sizeOf st < sizeOf l := by
  intro l st h
  match l, h with
  | (.node k2 s2 v2 (some (.mk n st2)) t2) :: rest, h => ?_
  rw [quantSymType] at h
  simp only [Option.some.injEq] at h
  subst h
  simp only [List.cons.sizeOf_spec, Expr.node.sizeOf_spec,
    Option.some.sizeOf_spec, Symbol.mk.sizeOf_spec]
  omega

/-- Result of checkExpression: the returned flag, the expression with
the types attached, and the emitted diagnostics. -/
structure CRes where
  ok : Bool
  expr : Expr
  ds : List Diag

/-- Result of checking a list of children. -/
structure CLRes where
  ok : Bool
  exprs : List Expr
  ds : List Diag

/-- The common tail of checkExpression: an unknown computed type is a
type error; otherwise the type is attached and the check succeeds. -/
def finishCase (e1 : Expr) (pre : List Diag) : CaseRes → CRes
  | .typed t ds2 =>
    if t.unknown then ⟨false, e1, pre ++ ds2 ++ [.error "$Type_error"]⟩
    else ⟨true, e1.setType t, pre ++ ds2⟩
  | .retTrue ds2 => ⟨true, e1, pre ++ ds2⟩
  | .retFalse ds2 => ⟨false, e1, pre ++ ds2⟩

/-- The non-recursive tail of checkExpression: abort if a child failed;
dispatch on the kind; FUNCALL checks the arguments against the declared
parameter types of the (checked) function child and returns without
attaching a type (dext holds the diagnostics of the re-check of the
function child); the quantifiers prepend the checkType diagnostics of
the bound symbol (dext); everything else goes through caseOf and the
common tail. -/
def dispatchExpr (ctx : Ctx) (k : Kind) (sub : List Expr) (v : Int)
    (sy : Option Symbol) (ty : TType) (cr : CLRes) (dext : List Diag) :
    CRes :=
  let e1 := Expr.node k cr.exprs v sy ty
  if !cr.ok then ⟨false, e1, cr.ds⟩
  else
    match k with
    | .FUNCALL =>
      let ftype := (cr.exprs.headD emptyExpr).getType
      let pc := funcallArgsCheck (ftype.subs.drop 1) (cr.exprs.drop 1)
      ⟨pc.1, e1, cr.ds ++ dext ++ pc.2⟩
    | .FORALL | .EXISTS | .SUM => finishCase e1 (cr.ds ++ dext) (caseOf ctx e1)
    | _ => finishCase e1 cr.ds (caseOf ctx e1)

mutual
/-- TypeChecker::checkExpression: checks the children first (all of
them, accumulating their diagnostics), then finishes through
dispatchExpr, which aborts if a child failed, dispatches on the kind,
and attaches the computed type.  The FUNCALL case re-runs
checkExpression on the function child (the C++ discards the flag; the
original child is re-checked here — checking only rewrites attached
types, so the same diagnostics result); the FORALL/EXISTS/SUM cases run
checkType on the type of the bound symbol (taken from the first child;
its symbol is untouched by checking). -/
def checkExpression (ctx : Ctx) : Expr → CRes
  | .node k sub v sy ty =>
    if k == .EMPTY then ⟨true, .node k sub v sy ty, []⟩
    else
      let cr := checkChildren ctx sub
      let dext : List Diag :=
        if k == .FUNCALL then
          match sub with
          | f :: _ => (checkExpression ctx f).ds
          | [] => []
        else if k == .FORALL || k == .EXISTS || k == .SUM then
          match hq : quantSymType sub with
          | some st => checkType ctx st false false
          | none => []
        else []
      dispatchExpr ctx k sub v sy ty cr dext
  termination_by e => sizeOf e
  decreasing_by
  all_goals simp_wf
  all_goals first
  | omega
  | (simp only [Expr.node.sizeOf_spec, List.cons.sizeOf_spec]; omega)
  | (have h := quantSymType_sizeOf_lt _ _ hq
     simp only [Expr.node.sizeOf_spec, List.cons.sizeOf_spec] at *
     omega)

/-- The child loop of checkExpression. -/
def checkChildren (ctx : Ctx) : List Expr → CLRes
  | [] => ⟨true, [], []⟩
  | x :: rest =>
    let r := checkExpression ctx x
    let rr := checkChildren ctx rest
    ⟨r.ok && rr.ok, r.expr :: rr.exprs, r.ds ++ rr.ds⟩
  termination_by l => sizeOf l

/-- TypeChecker::checkType: validity of a declared type (prefix
legality, ranges integer and compile-time computable, array sizes
ranges, no doubles inside structs, initialisable kinds).  Prefix nodes
without a subtype (an assertion failure in the C++) contribute nothing
further. -/
def checkType (ctx : Ctx) : TType → Bool → Bool → List Diag
  | .node .LABEL _ (s0 :: _) _, ini, ins => checkType ctx s0 ini ins
  | t@(.node .URGENT _ (s0 :: _) _), ini, ins =>
    (if !t.isLocation && !t.isChannel then
       [Diag.error "$Prefix_urgent_only_allowed_for_locations_and_channels"]
     else []) ++ checkType ctx s0 ini ins
  | t@(.node .BROADCAST _ (s0 :: _) _), ini, ins =>
    (if !t.isChannel then
       [Diag.error "$Prefix_broadcast_only_allowed_for_channels"]
     else []) ++ checkType ctx s0 ini ins
  | t@(.node .COMMITTED _ (s0 :: _) _), ini, ins =>
    (if !t.isLocation then
       [Diag.error "$Prefix_committed_only_allowed_for_locations"]
     else []) ++ checkType ctx s0 ini ins
  | t@(.node .HYBRID _ (s0 :: _) _), ini, ins =>
    (if !t.isClock && !(t.isArray && t.stripArray.isClock) then
       [Diag.error "$Prefix_hybrid_only_allowed_for_clocks"]
     else []) ++ checkType ctx s0 ini ins
  | t@(.node .CONSTANT _ (s0 :: _) _), ini, ins =>
    (if t.isClock then [Diag.error "$Prefix_const_not_allowed_for_clocks"]
     else []) ++ checkType ctx s0 true ins
  | t@(.node .SYSTEM_META _ (s0 :: _) _), ini, ins =>
    (if t.isClock then [Diag.error "$Prefix_meta_not_allowed_for_clocks"]
     else []) ++ checkType ctx s0 true ins
  | t@(.node .REF _ (s0 :: _) _), ini, ins =>
    (if !t.isIntegral && !t.isArray && !t.isRecord && !t.isChannel &&
        !t.isClock && !t.isScalar && !t.isDouble then
       [Diag.error "$Reference_to_this_type_not_allowed"]
     else []) ++ checkType ctx s0 ini ins
  | t@(.node .RANGE _ _ rng), ini, ins =>
    (if !t.isInteger && !t.isScalar then
       [Diag.error "$Range_over_this_type_not_allowed"]
     else []) ++
    (match rng with
     | some (l, u) =>
       let rl := checkExpression ctx l
       let ru := checkExpression ctx u
       (rl.ds ++
        (if rl.ok then
           (if !isIntegerE rl.expr then [Diag.error "$Integer_expected"]
            else []) ++
           (if !isCompileTimeComputable ctx rl.expr then
              [Diag.error "$Must_be_computable_at_compile_time"]
            else [])
         else [])) ++
       (ru.ds ++
        (if ru.ok then
           (if !isIntegerE ru.expr then [Diag.error "$Integer_expected"]
            else []) ++
           (if !isCompileTimeComputable ctx ru.expr then
              [Diag.error "$Must_be_computable_at_compile_time"]
            else [])
         else []))
     | none => [])
  | .node .ARRAY _ (s0 :: s1 :: _) _, ini, ins =>
    (if !s1.is .RANGE then [Diag.error "$Invalid_array_size"]
     else checkType ctx s1 false false) ++ checkType ctx s0 ini ins
  | .node .ARRAY _ [s0] _, ini, ins =>
    [Diag.error "$Invalid_array_size"] ++ checkType ctx s0 ini ins
  | .node .ARRAY _ [] _, _, _ => [Diag.error "$Invalid_array_size"]
  | .node .RECORD _ ss _, _, _ => checkTypeList ctx ss
  | .node .DOUBLE _ _ _, _, ins =>
    if ins then [Diag.error "$This_type_cannot_be_declared_inside_a_struct"]
    else []
  | .node .INT _ _ _, _, _ => []
  | .node .BOOL _ _ _, _, _ => []
  | .node _ _ _ _, ini, _ =>
    if ini then [Diag.error "$This_type_cannot_be_declared_const_or_meta"]
    else []
  termination_by t _ _ => sizeOf t

/-- The RECORD field loop of checkType. -/
def checkTypeList (ctx : Ctx) : List TType → List Diag
  | [] => []
  | s :: rest => checkType ctx s true true ++ checkTypeList ctx rest
  termination_by l => sizeOf l
end

/-- RateDecomposer: the residual invariant starts out as the constant 1
(see the C++ constructor), so it is never empty. -/
structure RateDecomposer where
  costRate : Expr
  invariant : Expr
  hasStrictInvariant : Bool
  hasClockRates : Bool
  countCostRates : Nat

/-- The RateDecomposer constructor: empty cost rate, constant-1
residual, no flags, zero cost rates. -/
def RateDecomposer.init : RateDecomposer :=
  ⟨emptyExpr, Expr.createConstant 1, false, false, 0⟩

/-- RateDecomposer::decompose.  A pure invariant conjunct is conjoined
into the residual (outside a forall) and LT flags a strict invariant; an
AND of invariant-with-rate parts is flattened; an EQ is a rate equation
— its cost side is recorded as the cost rate, a clock rate sets the flag
and keeps the equation in the residual; a FORALL is entered (with
inforall set) and kept whole in the residual.  Any other shape is
impossible for a checked invariant-with-rate (assertion in the C++) and
leaves the state unchanged. -/
def decompose : Expr → Bool → RateDecomposer → RateDecomposer
  | e@(.node k sub _ _ _), inforall, d =>
    if isInvariantE e then
      let d1 := if k == .LT then { d with hasStrictInvariant := true } else d
      if !inforall then
        { d1 with invariant :=
            if d1.invariant.isEmptyE then e
            else Expr.createBinary .AND d1.invariant e
                   (TType.createPrimitive .INVARIANT) }
      else d1
    else
      match k, sub with
      | .AND, x :: y :: _ => decompose y inforall (decompose x inforall d)
      | .EQ, x :: y :: _ =>
        let lr :=
          if x.getType.kind == .RATE then (x.childD 0, y)
          else (y.childD 0, x)
        if isCost lr.1 then
          { d with costRate := lr.2, countCostRates := d.countCostRates + 1 }
        else
          let d1 := { d with hasClockRates := true }
          if !inforall then
            { d1 with invariant :=
                if d1.invariant.isEmptyE then e
                else Expr.createBinary .AND d1.invariant e
                       (TType.createPrimitive .INVARIANT_WR) }
          else d1
      | .FORALL, _ :: y :: _ =>
        let d1 := decompose y true d
        { d1 with invariant :=
            if d1.invariant.isEmptyE then e
            else Expr.createBinary .AND d1.invariant e
                   (TType.createPrimitive .INVARIANT_WR) }
      | _, _ => d

/-- A state: its invariant, cost rate, and exponential rate. -/
structure State where
  invariant : Expr
  costRate : Expr
  exponentialRate : Expr

/-- Result of visitState: the updated state, the diagnostics, and
whether recordStopWatch / recordStrictInvariant were invoked on the
system. -/
structure VSRes where
  state : State
  ds : List Diag
  stopWatch : Bool
  strictInv : Bool

/-- TypeChecker::visitState (the ENABLE_TIGA strict-invariant warning is
compiled out).  The invariant, when present, is checked; a non-invariant
type or a side effect is an error; otherwise the invariant is
decomposed, the state's invariant and cost rate are rewritten, more than
one cost rate is an error, clock rates are recorded as stopwatches and a
strict invariant is recorded.  The exponential rate, when present, must
be integral, a fraction, or double. -/
def visitState (ctx : Ctx) (st : State) : VSRes :=
  let p1 : VSRes :=
    if !st.invariant.isEmptyE then
      let r := checkExpression ctx st.invariant
      if r.ok then
        if !isInvariantWR r.expr then
          ⟨{ st with invariant := r.expr },
           r.ds ++
             [.error "$Expression_of_type ... $cannot_be_used_as_an_invariant"],
           false, false⟩
        else if changesAnyVariable r.expr then
          ⟨{ st with invariant := r.expr },
           r.ds ++ [.error "$Invariant_must_be_side-effect_free"],
           false, false⟩
        else
          let d := decompose r.expr false RateDecomposer.init
          ⟨{ st with invariant := d.invariant, costRate := d.costRate },
           r.ds ++
             (if 1 < d.countCostRates then
                [Diag.error "$Only_one_cost_rate_is_allowed"]
              else []),
           d.hasClockRates, d.hasStrictInvariant⟩
      else ⟨{ st with invariant := r.expr }, r.ds, false, false⟩
    else ⟨st, [], false, false⟩
  if !p1.state.exponentialRate.isEmptyE then
    let r2 := checkExpression ctx p1.state.exponentialRate
    let dsr :=
      if r2.ok &&
         (!isIntegralE r2.expr && r2.expr.kind != .FRACTION &&
          !r2.expr.getType.isDouble) then
        [Diag.error "$Number_expected"]
      else []
    ⟨{ p1.state with exponentialRate := r2.expr },
     p1.ds ++ r2.ds ++ dsr, p1.stopWatch, p1.strictInv⟩
  else p1

/-! The statement AST (statement.cpp) reduced to the structure the
returns() analysis reads; conditions and bodies are kept, frames and
symbols are dropped. -/

inductive Stmt where
  | emptyStat : Stmt
  | exprStat (e : Expr) : Stmt
  | assertStat (e : Expr) : Stmt
  | forStat (ini cond step : Expr) (body : Stmt) : Stmt
  | iterationStat (body : Stmt) : Stmt
  | whileStat (cond : Expr) (body : Stmt) : Stmt
  | doWhileStat (body : Stmt) (cond : Expr) : Stmt
  | blockStat (stats : List Stmt) : Stmt
  | switchStat (cond : Expr) (stats : List Stmt) : Stmt
  | caseStat (cond : Expr) (stats : List Stmt) : Stmt
  | defaultStat (stats : List Stmt) : Stmt
  | ifStat (cond : Expr) (trueCase : Stmt) (falseCase : Option Stmt) : Stmt
  | breakStat : Stmt
  | continueStat : Stmt
  | returnStat (value : Expr) : Stmt

mutual
/-- Statement::returns(): whether the statement returns for sure.  Every
kind returns false except do-while (its body), a block (non-empty and
its last statement returns), an if with both branches present and
returning, and return itself. -/
def Stmt.returns : Stmt → Bool
  | .emptyStat => false
  | .exprStat _ => false
  | .assertStat _ => false
  | .forStat _ _ _ _ => false
  | .iterationStat _ => false
  | .whileStat _ _ => false
  | .doWhileStat body _ => body.returns
  | .blockStat stats => returnsLast stats
  | .switchStat _ _ => false
  | .caseStat _ _ => false
  | .defaultStat _ => false
  | .ifStat _ t f =>
    t.returns &&
    (match f with
     | some fc => fc.returns
     | none => false)
  | .breakStat => false
  | .continueStat => false
  | .returnStat _ => true

/-- BlockStatement::returns: begin() != end() && back()->returns(). -/
def returnsLast : List Stmt → Bool
  | [] => false
  | [s] => s.returns
  | _ :: rest => returnsLast rest
end

/-! Concrete fixtures used by witnesses and counterexamples: a clock x,
a cost variable c, an integer variable i, and small constants. -/

def noCtx : Ctx := ⟨[]⟩

def clockT : TType := TType.createPrimitive .CLOCK

def intT : TType := TType.createPrimitive .INT

def costT : TType := TType.createPrimitive .COST

def scalarT : TType := TType.createPrimitive .SCALAR

def refScalarT : TType := TType.node .REF [] [scalarT] none

def xClock : Expr := Expr.node .IDENTIFIER [] 0 (some (.mk "x" clockT)) clockT

def iInt : Expr := Expr.node .IDENTIFIER [] 0 (some (.mk "i" intT)) intT

def cCost : Expr := Expr.node .IDENTIFIER [] 0 (some (.mk "c" costT)) costT

/-! Helper unfolding lemmas for the checker. -/

theorem checkChildren_nil (ctx : Ctx) : checkChildren ctx [] = ⟨true, [], []⟩ := by
  rw [checkChildren]

theorem checkChildren_cons (ctx : Ctx) (x : Expr) (rest : List Expr) :
    checkChildren ctx (x :: rest) =
      ⟨(checkExpression ctx x).ok && (checkChildren ctx rest).ok,
       (checkExpression ctx x).expr :: (checkChildren ctx rest).exprs,
       (checkExpression ctx x).ds ++ (checkChildren ctx rest).ds⟩ := by
  rw [checkChildren]

theorem checkExpression_eq_dispatch (ctx : Ctx) (k : Kind) (sub : List Expr)
    (v : Int) (sy : Option Symbol) (ty : TType)
    (hk : k ≠ .EMPTY) (hnf : k ≠ .FUNCALL) (hq1 : k ≠ .FORALL)
    (hq2 : k ≠ .EXISTS) (hq3 : k ≠ .SUM) :
    checkExpression ctx (.node k sub v sy ty) =
      dispatchExpr ctx k sub v sy ty (checkChildren ctx sub) [] := by
  rw [checkExpression.eq_def]
  simp [hk, hnf, hq1, hq2, hq3]

theorem checkExpression_eq_funcall (ctx : Ctx) (f : Expr) (args : List Expr)
    (v : Int) (sy : Option Symbol) (ty : TType) :
    checkExpression ctx (.node .FUNCALL (f :: args) v sy ty) =
      dispatchExpr ctx .FUNCALL (f :: args) v sy ty
        (checkChildren ctx (f :: args)) (checkExpression ctx f).ds := by
  rw [checkExpression.eq_def]
  simp

/-! Claim C9: the returns() analysis of if statements. -/

/-- C9: IfStatement::returns() returns true iff the false branch is
present and both branches return; an if without an else never returns
(the conservative semantics), whatever the true branch does. -/
theorem claim_C9_if_returns :
    (∀ (c : Expr) (t : Stmt) (f : Option Stmt),
      (Stmt.ifStat c t f).returns =
        (t.returns &&
          (match f with
           | some fc => fc.returns
           | none => false))) ∧
    (∀ (c : Expr) (t : Stmt), (Stmt.ifStat c t none).returns = false) := by
  constructor
  · intro c t f
    rw [Stmt.returns.eq_def]
  · intro c t
    rw [Stmt.returns.eq_def]
    show (t.returns && false) = false
    exact Bool.and_false _

/-! Claim C8: the lvalue hierarchy. -/

theorem isModifiableLValue_isLValue :
    ∀ e, isModifiableLValue e = true → isLValue e = true := by
  intro e
  induction e using isModifiableLValue.induct <;>
    simp_all [isModifiableLValue, isLValue]

theorem isUniqueReference_isLValue :
    ∀ (ctx : Ctx) (e : Expr), isUniqueReference ctx e = true →
      isLValue e = true := by
  intro ctx e
  induction e using isUniqueReference.induct ctx <;>
    simp_all [isUniqueReference, isLValue]

/-- C8: every modifiable lvalue is an lvalue, and every unique reference
is an lvalue. -/
theorem claim_C8_lvalue_hierarchy :
    ∀ (ctx : Ctx) (e : Expr),
      (isModifiableLValue e = true → isLValue e = true) ∧
      (isUniqueReference ctx e = true → isLValue e = true) := by
  intro ctx e
  exact ⟨isModifiableLValue_isLValue e, isUniqueReference_isLValue ctx e⟩

/-- C8 witness: the integer identifier i is a modifiable lvalue, a
unique reference, and (by the claim theorem) an lvalue. -/
theorem claim_C8_lvalue_hierarchy_witness :
    isModifiableLValue iInt = true ∧ isUniqueReference noCtx iInt = true ∧
      isLValue iInt = true := by
  refine ⟨by simp [isModifiableLValue, iInt, intT, TType.isNonConstant,
    TType.isConstant, TType.is], by simp [isUniqueReference, iInt], ?_⟩
  exact (claim_C8_lvalue_hierarchy noCtx iInt).1
    (by simp [isModifiableLValue, iInt, intT, TType.isNonConstant,
      TType.isConstant, TType.is])

/-! Claim C6: areEquivalent on ref-prefixed scalars (the EF/REF typo in
isSameScalarType). -/

/-- C6: evaluation at the failing input — for the scalar type with a ref
prefix, areEquivalent is not reflexive (areEquivalent(a,a) is false) and
not symmetric (ref-scalar vs scalar holds, scalar vs ref-scalar does
not): isSameScalarType strips REF only from its first argument because
its second-argument branch compares against the expression kind EF
instead of REF. -/
theorem claim_C6_refScalar_not_reflexive :
    areEquivalent refScalarT refScalarT = false ∧
    areEquivalent refScalarT scalarT = true ∧
    areEquivalent scalarT refScalarT = false := by
  refine ⟨?_, ?_, ?_⟩ <;>
    simp [areEquivalent, isSameScalarType, refScalarT, scalarT,
      TType.isInteger, TType.isBoolean, TType.isClock, TType.isChannel,
      TType.isRecord, TType.isArray, TType.isScalar, TType.isDouble,
      TType.is, isWrapKind]

/-! Claim C2: the relational operators on clocks. -/

/-- The comparison x < 3 with x a clock. -/
def ltClockInt : Expr :=
  Expr.node .LT [xClock, Expr.createConstant 3] 0 none unknownType

/-- C2 counterexample: for the clock comparison x < 3, checkExpression
succeeds but attaches type invariant, not guard — the clock-vs-bound
branch (a bound is an integer or a double) subsumes clock-vs-integer, so
the guard branch of the GE/GT/LE/LT case is unreachable. -/
theorem claim_C2_counterexample :
    (checkExpression noCtx ltClockInt).ok = true ∧
    (checkExpression noCtx ltClockInt).expr.getType =
      TType.createPrimitive .INVARIANT ∧
    TType.createPrimitive .INVARIANT ≠ TType.createPrimitive .GUARD := by
  refine ⟨?_, ?_, by simp [TType.createPrimitive]⟩ <;>
    simp [ltClockInt, xClock, clockT, checkExpression_eq_dispatch,
      checkChildren_cons, checkChildren_nil, checkExpression, dispatchExpr,
      caseOf, finishCase, isIntegralE, isClockE, isBound, isIntegerE,
      isDoubleE, isDiffE, isNumber, isDoubleValue, TType.isIntegral,
      TType.isClock, TType.isInteger, TType.isDouble, TType.isDiff,
      TType.is, isWrapKind, TType.unknown, unknownType]

/-- C2 (amended): for GE/GT/LE/LT, a clock compared with an integer
expression is accepted with result type invariant — the clock-vs-bound
branch fires since every integer is a bound, and the guard branch is
dead code; clock-vs-clock and clock-vs-double comparisons also get
invariant, and integral-vs-integral comparisons get bool. -/
theorem claim_C2_relational_operators :
    ∀ (ctx : Ctx) (k : Kind) (a b : Expr) (v : Int) (sy : Option Symbol)
      (ty : TType),
      (k = .GE ∨ k = .GT ∨ k = .LE ∨ k = .LT) →
      (checkExpression ctx a).ok = true →
      (checkExpression ctx b).ok = true →
      (((isClockE (checkExpression ctx a).expr = true ∧
         isIntegerE (checkExpression ctx b).expr = true ∧
         isIntegralE (checkExpression ctx a).expr = false) ∨
        (isIntegerE (checkExpression ctx a).expr = true ∧
         isClockE (checkExpression ctx b).expr = true ∧
         isIntegralE (checkExpression ctx b).expr = false) ∨
        (isClockE (checkExpression ctx a).expr = true ∧
         isClockE (checkExpression ctx b).expr = true ∧
         isIntegralE (checkExpression ctx a).expr = false) ∨
        (isClockE (checkExpression ctx a).expr = true ∧
         isDoubleE (checkExpression ctx b).expr = true ∧
         isIntegralE (checkExpression ctx a).expr = false) →
        (checkExpression ctx (.node k [a, b] v sy ty)).ok = true ∧
        (checkExpression ctx (.node k [a, b] v sy ty)).expr.getType =
          TType.createPrimitive .INVARIANT) ∧
       (isIntegralE (checkExpression ctx a).expr = true →
        isIntegralE (checkExpression ctx b).expr = true →
        (checkExpression ctx (.node k [a, b] v sy ty)).ok = true ∧
        (checkExpression ctx (.node k [a, b] v sy ty)).expr.getType =
          TType.createPrimitive .BOOL)) := by
  intro ctx k a b v sy ty hk hoa hob
  have hne : k ≠ .EMPTY ∧ k ≠ .FUNCALL ∧ k ≠ .FORALL ∧ k ≠ .EXISTS ∧
      k ≠ .SUM := by
    rcases hk with h | h | h | h <;> subst h <;> exact ⟨by decide, by decide,
      by decide, by decide, by decide⟩
  rw [checkExpression_eq_dispatch ctx k [a, b] v sy ty hne.1 hne.2.1
    hne.2.2.1 hne.2.2.2.1 hne.2.2.2.2, checkChildren_cons, checkChildren_cons,
    checkChildren_nil]
  constructor
  · intro hcase
    rcases hk with h | h | h | h <;> subst h <;>
    rcases hcase with ⟨h1, h2, h3⟩ | ⟨h1, h2, h3⟩ | ⟨h1, h2, h3⟩ |
        ⟨h1, h2, h3⟩ <;>
      simp_all [dispatchExpr, caseOf, finishCase, isBound, isIntegralE,
        isClockE, isIntegerE, isDoubleE, TType.isIntegral, TType.unknown,
        TType.createPrimitive]
  · intro h1 h2
    rcases hk with h | h | h | h <;> subst h <;>
      simp_all [dispatchExpr, caseOf, finishCase, TType.unknown,
        TType.createPrimitive]

/-- C2 witness: the concrete clock-vs-clock and int-vs-int instances of
the amended theorem at x < 3 replaced by x < x and 2 < 3. -/
theorem claim_C2_relational_operators_witness :
    (checkExpression noCtx (.node .LT [xClock, xClock] 0 none unknownType)).ok
        = true ∧
    (checkExpression noCtx
        (.node .LT [xClock, xClock] 0 none unknownType)).expr.getType =
      TType.createPrimitive .INVARIANT := by
  refine (claim_C2_relational_operators noCtx .LT xClock xClock 0 none
    unknownType (by simp) ?_ ?_).1 (Or.inr (Or.inr (Or.inl ⟨?_, ?_, ?_⟩))) <;>
    simp [checkExpression, checkChildren_nil, dispatchExpr, caseOf,
      finishCase, xClock, clockT, isClockE, isIntegralE, TType.isClock,
      TType.isIntegral, TType.is, isWrapKind]

/-! Claim C10: ASSPLUS diagnoses but still succeeds, unlike ASSIGN and
the other compound assignments. -/

/-- C10: for an ASSPLUS node whose children check successfully (and
whose left operand carries a known type), checkExpression returns true
and attaches the left operand's type, even in the diagnosed cases — and
the diagnostic is emitted when the operand shapes are wrong; ASSIGN
returns false on incompatible types or a non-lvalue, and the other
compound assignments return false on non-integral operands or a
non-lvalue. -/
theorem claim_C10_assplus_vs_assign :
    ∀ (ctx : Ctx) (k : Kind) (a b : Expr) (v : Int) (sy : Option Symbol)
      (ty : TType),
      (checkExpression ctx a).ok = true →
      (checkExpression ctx b).ok = true →
      (((checkExpression ctx a).expr.getType.unknown = false →
        (checkExpression ctx (.node .ASSPLUS [a, b] v sy ty)).ok = true ∧
        (checkExpression ctx (.node .ASSPLUS [a, b] v sy ty)).expr.getType =
          (checkExpression ctx a).expr.getType) ∧
       (((!isIntegerE (checkExpression ctx a).expr &&
          !isCost (checkExpression ctx a).expr) ||
         !isIntegralE (checkExpression ctx b).expr) = true →
        Diag.error
            "$Increment_operator_can_only_be_used_for_integers_and_cost_variables"
          ∈ (checkExpression ctx (.node .ASSPLUS [a, b] v sy ty)).ds) ∧
       (areAssignmentCompatible (checkExpression ctx a).expr.getType
          (checkExpression ctx b).expr.getType false = false →
        (checkExpression ctx (.node .ASSIGN [a, b] v sy ty)).ok = false) ∧
       (isModifiableLValue (checkExpression ctx a).expr = false →
        (checkExpression ctx (.node .ASSIGN [a, b] v sy ty)).ok = false) ∧
       ((k = .ASSMINUS ∨ k = .ASSDIV ∨ k = .ASSMOD ∨ k = .ASSMULT ∨
         k = .ASSAND ∨ k = .ASSOR ∨ k = .ASSXOR ∨ k = .ASSLSHIFT ∨
         k = .ASSRSHIFT) →
        ((isIntegralE (checkExpression ctx a).expr = false ∨
          isIntegralE (checkExpression ctx b).expr = false) ∨
         isModifiableLValue (checkExpression ctx a).expr = false) →
        (checkExpression ctx (.node k [a, b] v sy ty)).ok = false)) := by
  intro ctx k a b v sy ty hoa hob
  refine ⟨?_, ?_, ?_, ?_, ?_⟩
  · intro hu
    rw [checkExpression_eq_dispatch ctx .ASSPLUS [a, b] v sy ty (by decide)
      (by decide) (by decide) (by decide) (by decide), checkChildren_cons,
      checkChildren_cons, checkChildren_nil]
    simp_all [dispatchExpr, caseOf, finishCase]
  · intro hdiag
    rw [checkExpression_eq_dispatch ctx .ASSPLUS [a, b] v sy ty (by decide)
      (by decide) (by decide) (by decide) (by decide), checkChildren_cons,
      checkChildren_cons, checkChildren_nil]
    simp_all [dispatchExpr, caseOf, finishCase]
    split <;> simp
  · intro hcomp
    rw [checkExpression_eq_dispatch ctx .ASSIGN [a, b] v sy ty (by decide)
      (by decide) (by decide) (by decide) (by decide), checkChildren_cons,
      checkChildren_cons, checkChildren_nil]
    simp_all [dispatchExpr, caseOf, finishCase]
  · intro hlv
    rw [checkExpression_eq_dispatch ctx .ASSIGN [a, b] v sy ty (by decide)
      (by decide) (by decide) (by decide) (by decide), checkChildren_cons,
      checkChildren_cons, checkChildren_nil]
    cases hc : areAssignmentCompatible (checkExpression ctx a).expr.getType
        (checkExpression ctx b).expr.getType false <;>
      simp_all [dispatchExpr, caseOf, finishCase]
  · intro hk hbad
    have hne : k ≠ .EMPTY ∧ k ≠ .FUNCALL ∧ k ≠ .FORALL ∧ k ≠ .EXISTS ∧
        k ≠ .SUM := by
      rcases hk with h | h | h | h | h | h | h | h | h <;> subst h <;>
        exact ⟨by decide, by decide, by decide, by decide, by decide⟩
    rw [checkExpression_eq_dispatch ctx k [a, b] v sy ty hne.1 hne.2.1
      hne.2.2.1 hne.2.2.2.1 hne.2.2.2.2, checkChildren_cons,
      checkChildren_cons, checkChildren_nil]
    rcases hk with h | h | h | h | h | h | h | h | h <;> subst h <;>
      cases hIa : isIntegralE (checkExpression ctx a).expr <;>
      cases hIb : isIntegralE (checkExpression ctx b).expr <;>
      cases hLv : isModifiableLValue (checkExpression ctx a).expr <;>
      simp_all [dispatchExpr, caseOf, finishCase]

/-- C10 witness: x += x with x a clock — the increment diagnostic is
emitted, yet the check returns true and attaches the clock type of the
left operand; x -= x fails (non-integral operands). -/
theorem claim_C10_assplus_vs_assign_witness :
    (checkExpression noCtx
        (.node .ASSPLUS [xClock, xClock] 0 none unknownType)).ok = true ∧
    Diag.error
        "$Increment_operator_can_only_be_used_for_integers_and_cost_variables"
      ∈ (checkExpression noCtx
          (.node .ASSPLUS [xClock, xClock] 0 none unknownType)).ds ∧
    (checkExpression noCtx
        (.node .ASSMINUS [xClock, xClock] 0 none unknownType)).ok = false := by
  have hok : (checkExpression noCtx xClock).ok = true := by
    simp [checkExpression, checkChildren_nil, dispatchExpr, caseOf,
      finishCase, xClock]
  have hx : (checkExpression noCtx xClock).expr = xClock := by
    simp [checkExpression, checkChildren_nil, dispatchExpr, caseOf,
      finishCase, xClock]
  have h := claim_C10_assplus_vs_assign noCtx .ASSMINUS xClock xClock 0 none
    unknownType hok hok
  refine ⟨(h.1 ?_).1, h.2.1 ?_, h.2.2.2.2 (by simp) (Or.inl (Or.inl ?_))⟩ <;>
    rw [hx] <;>
    simp [xClock, clockT, TType.unknown, isIntegerE, isCost, isIntegralE,
      TType.isInteger, TType.isIntegral, TType.is, isWrapKind,
      TType.createPrimitive]

/-! Claim C5: the FUNCALL case. -/

/-- A function int f(int). -/
def funT : TType := TType.node .FUNCTION [] [intT, intT] none

def fIdent : Expr := Expr.node .IDENTIFIER [] 0 (some (.mk "f" funT)) funT

/-- f(5, x) — one declared parameter, two arguments, the extra one a
clock. -/
def badCall : Expr :=
  Expr.node .FUNCALL [fIdent, Expr.createConstant 5, xClock] 0 none
    unknownType

/-- C5 counterexample: the call f(5, x) with f declared as int f(int) is
accepted by checkExpression although it has two arguments for one
declared parameter and the extra argument (a clock) is not
parameter-compatible with anything declared; and checkExpression leaves
the call node's type unchanged (unknown), so it does not attach the
declared return type. -/
theorem claim_C5_counterexample :
    (checkExpression noCtx badCall).ok = true ∧
    badCall.sub.length - 1 ≠ funT.sizeT - 1 ∧
    isParameterCompatible intT (checkExpression noCtx xClock).expr = false ∧
    (checkExpression noCtx badCall).expr.getType = unknownType ∧
    unknownType ≠ intT := by
  refine ⟨?_, by simp [badCall, funT, TType.sizeT], ?_, ?_,
    by simp [unknownType, intT, TType.createPrimitive]⟩ <;>
    simp [badCall, fIdent, funT, xClock, clockT, intT,
      checkExpression_eq_funcall, checkExpression, checkChildren_cons,
      checkChildren_nil, dispatchExpr, caseOf, finishCase, funcallArgsCheck,
      checkParameterCompatible, isParameterCompatible, isModifiableLValue,
      areAssignmentCompatible, areEquivalent, channelCapability,
      TType.isConstant, TType.isChannel, TType.isClock, TType.isDouble,
      TType.isIntegral, TType.isInteger, TType.isBoolean, TType.isRecord,
      TType.isArray, TType.isScalar, TType.is, isWrapKind,
      TType.createPrimitive]

/-- C5 (amended): for a FUNCALL whose children all check, checkExpression
returns exactly the conjunction of the parameter-compatibility checks of
the first n arguments, where n is the declared parameter count of the
checked function child's type (extra arguments are not checked, so there
is no arity rejection), and it leaves the call node's type unchanged
(the declared return type is attached by the builder, not here). -/
theorem claim_C5_funcall_no_arity_no_type :
    ∀ (ctx : Ctx) (f : Expr) (args : List Expr) (v : Int)
      (sy : Option Symbol) (ty : TType),
      (checkChildren ctx (f :: args)).ok = true →
      (checkExpression ctx (.node .FUNCALL (f :: args) v sy ty)).ok =
        (funcallArgsCheck
          (((checkChildren ctx (f :: args)).exprs.headD
              emptyExpr).getType.subs.drop 1)
          ((checkChildren ctx (f :: args)).exprs.drop 1)).1 ∧
      (checkExpression ctx
          (.node .FUNCALL (f :: args) v sy ty)).expr.getType = ty := by
  intro ctx f args v sy ty hok
  rw [checkExpression_eq_funcall]
  simp [dispatchExpr, hok]

/-- C5 witness: the amended theorem applied to the call f(5, x). -/
theorem claim_C5_funcall_no_arity_no_type_witness :
    (checkChildren noCtx [fIdent, Expr.createConstant 5, xClock]).ok = true ∧
    (checkExpression noCtx badCall).expr.getType = unknownType := by
  have hok :
      (checkChildren noCtx [fIdent, Expr.createConstant 5, xClock]).ok =
        true := by
    simp [checkChildren_cons, checkChildren_nil, checkExpression, fIdent,
      xClock, dispatchExpr, caseOf, finishCase]
  exact ⟨hok,
    (claim_C5_funcall_no_arity_no_type noCtx fIdent
      [Expr.createConstant 5, xClock] 0 none unknownType hok).2⟩

/-! Claim C7: the run count of SIMULATE and SIMULATEREACH. -/

/-- C7: for SIMULATE/SIMULATEREACH (children checked), a run-count
operand that passes checkNrOfRuns (compile-time computable constant
integer) but has value below one is rejected with the
"$Invalid_run_count" error; with a positive value and all remaining
operand shape checks passing, the query is accepted with type
formula. -/
theorem claim_C7_simulate_run_count :
    ∀ (ctx : Ctx) (k : Kind) (sub : List Expr) (v : Int)
      (sy : Option Symbol) (ty : TType),
      (k = .SIMULATE ∨ k = .SIMULATEREACH) →
      (checkChildren ctx sub).ok = true →
      ((checkNrOfRuns ctx
          ((checkChildren ctx sub).exprs.getD 0 emptyExpr) = (true, []) →
        ((checkChildren ctx sub).exprs.getD 0 emptyExpr).value ≤ 0 →
        (checkExpression ctx (.node k sub v sy ty)).ok = false ∧
        Diag.error "$Invalid_run_count"
          ∈ (checkExpression ctx (.node k sub v sy ty)).ds) ∧
       (k = .SIMULATE →
        checkNrOfRuns ctx
          ((checkChildren ctx sub).exprs.getD 0 emptyExpr) = (true, []) →
        0 < ((checkChildren ctx sub).exprs.getD 0 emptyExpr).value →
        checkBoundTypeOrBoundedExpr
          ((checkChildren ctx sub).exprs.getD 1 emptyExpr) = (true, []) →
        checkBound ctx
          ((checkChildren ctx sub).exprs.getD 2 emptyExpr) = (true, []) →
        checkMonitoredList ((checkChildren ctx sub).exprs.drop 3) =
          (true, []) →
        (checkExpression ctx (.node k sub v sy ty)).ok = true ∧
        (checkExpression ctx (.node k sub v sy ty)).expr.getType =
          TType.createPrimitive .FORMULA) ∧
       (k = .SIMULATEREACH →
        5 ≤ (checkChildren ctx sub).exprs.length →
        checkNrOfRuns ctx
          ((checkChildren ctx sub).exprs.getD 0 emptyExpr) = (true, []) →
        0 < ((checkChildren ctx sub).exprs.getD 0 emptyExpr).value →
        checkBoundTypeOrBoundedExpr
          ((checkChildren ctx sub).exprs.getD 1 emptyExpr) = (true, []) →
        checkBound ctx
          ((checkChildren ctx sub).exprs.getD 2 emptyExpr) = (true, []) →
        checkPredicate
          ((checkChildren ctx sub).exprs.getD
            ((checkChildren ctx sub).exprs.length - 2) emptyExpr) =
          (true, []) →
        checkNrOfRuns ctx
          ((checkChildren ctx sub).exprs.getD
            ((checkChildren ctx sub).exprs.length - 1) emptyExpr) =
          (true, []) →
        checkMonitoredList
          (((checkChildren ctx sub).exprs.take
              ((checkChildren ctx sub).exprs.length - 2)).drop 3) =
          (true, []) →
        (checkExpression ctx (.node k sub v sy ty)).ok = true ∧
        (checkExpression ctx (.node k sub v sy ty)).expr.getType =
          TType.createPrimitive .FORMULA)) := by
  intro ctx k sub v sy ty hk hok
  have hne : k ≠ .EMPTY ∧ k ≠ .FUNCALL ∧ k ≠ .FORALL ∧ k ≠ .EXISTS ∧
      k ≠ .SUM := by
    rcases hk with h | h <;> subst h <;> exact ⟨by decide, by decide,
      by decide, by decide, by decide⟩
  rw [checkExpression_eq_dispatch ctx k sub v sy ty hne.1 hne.2.1 hne.2.2.1
    hne.2.2.2.1 hne.2.2.2.2]
  refine ⟨?_, ?_, ?_⟩
  · intro hruns hval
    rcases hk with h | h <;> subst h <;>
      simp_all [dispatchExpr, caseOf, finishCase, Expr.childD, Expr.size]
  · intro h hruns hval hbt hbd hmon
    subst h
    have hval2 :
        ¬(((checkChildren ctx sub).exprs.getD 0 emptyExpr).value ≤ 0) := by
      omega
    simp_all [dispatchExpr, caseOf, finishCase, Expr.childD, Expr.size,
      TType.unknown, TType.createPrimitive, -not_le]
  · intro h hlen hruns hval hbt hbd hpred hruns2 hmon
    subst h
    have hval2 :
        ¬(((checkChildren ctx sub).exprs.getD 0 emptyExpr).value ≤ 0) := by
      omega
    have hidx : (checkChildren ctx sub).exprs.length - 2 + 1 =
        (checkChildren ctx sub).exprs.length - 1 := by omega
    simp_all [dispatchExpr, caseOf, finishCase, Expr.childD, Expr.size,
      TType.unknown, TType.createPrimitive, -not_le]

/-- simulate[<=10; 100] with the clock x monitored: run count 100,
bound-type operand the constant 1, bound 10. -/
def simOk : Expr :=
  Expr.node .SIMULATE [Expr.createConstant 100, Expr.createConstant 1,
    Expr.createConstant 10, xClock] 0 none unknownType

/-- The same query with run count 0. -/
def simZero : Expr :=
  Expr.node .SIMULATE [Expr.createConstant 0, Expr.createConstant 1,
    Expr.createConstant 10, xClock] 0 none unknownType

/-- C7 witness: the theorem applied at simulate[<=10; 100] (accepted,
type formula) and at run count 0 (rejected with the
"$Invalid_run_count" error). -/
theorem claim_C7_simulate_run_count_witness :
    (checkExpression noCtx simOk).ok = true ∧
    (checkExpression noCtx simOk).expr.getType =
      TType.createPrimitive .FORMULA ∧
    (checkExpression noCtx simZero).ok = false ∧
    Diag.error "$Invalid_run_count" ∈ (checkExpression noCtx simZero).ds := by
  have hacc := (claim_C7_simulate_run_count noCtx .SIMULATE
    [Expr.createConstant 100, Expr.createConstant 1, Expr.createConstant 10,
      xClock] 0 none unknownType (Or.inl rfl)
    (by simp [checkChildren_cons, checkChildren_nil, checkExpression,
      dispatchExpr, caseOf, finishCase, xClock])).2.1 rfl
    (by simp [checkChildren_cons, checkChildren_nil, checkExpression,
      dispatchExpr, caseOf, finishCase, xClock, checkNrOfRuns,
      isCompileTimeComputable, possibleReads, possibleReadsList,
      isConstantInteger, isIntegerE, TType.isInteger, TType.is])
    (by simp [checkChildren_cons, checkChildren_nil, checkExpression,
      dispatchExpr, caseOf, finishCase, xClock])
    (by simp [checkChildren_cons, checkChildren_nil, checkExpression,
      dispatchExpr, caseOf, finishCase, xClock, checkBoundTypeOrBoundedExpr,
      isConstantInteger, isIntegerE, TType.isInteger, TType.is])
    (by simp [checkChildren_cons, checkChildren_nil, checkExpression,
      dispatchExpr, caseOf, finishCase, xClock, checkBound,
      isCompileTimeComputable, possibleReads, possibleReadsList, isIntegralE,
      TType.isIntegral, TType.is])
    (by simp [checkChildren_cons, checkChildren_nil, checkExpression,
      dispatchExpr, caseOf, finishCase, xClock, clockT, checkMonitoredList,
      checkMonitoredExpr, isIntegralE, isClockE, isDoubleValue, isDoubleE,
      isDiffE, isConstraintE, TType.isIntegral, TType.isClock,
      TType.isDouble, TType.isDiff, TType.isConstraint, TType.isGuard,
      TType.isInvariant, TType.is, isWrapKind, changesAnyVariable,
      changesAnyVariableList, isWriteKind])
  have hrej := (claim_C7_simulate_run_count noCtx .SIMULATE
    [Expr.createConstant 0, Expr.createConstant 1, Expr.createConstant 10,
      xClock] 0 none unknownType (Or.inl rfl)
    (by simp [checkChildren_cons, checkChildren_nil, checkExpression,
      dispatchExpr, caseOf, finishCase, xClock])).1
    (by simp [checkChildren_cons, checkChildren_nil, checkExpression,
      dispatchExpr, caseOf, finishCase, xClock, checkNrOfRuns,
      isCompileTimeComputable, possibleReads, possibleReadsList,
      isConstantInteger, isIntegerE, TType.isInteger, TType.is])
    (by simp [checkChildren_cons, checkChildren_nil, checkExpression,
      dispatchExpr, caseOf, finishCase, xClock])
  exact ⟨hacc.1, hacc.2, hrej.1, hrej.2⟩

/-! Claims C1 and C4: the rate decomposition of state invariants.  The
shape functions below classify a checked invariant-with-rate expression
the way decompose traverses it: a conjunction tree (binary ANDs typed
invariant-with-rate) whose leaves are pure invariant conjuncts or
cost-rate equations rate(c) == e with c of cost type. -/

/-- The conjunction-tree shape decompose handles for the claims: pure
invariant leaves and cost-rate equations only (no clock rates, no
foralls). -/
def wrShape : Expr → Bool
  | e@(.node k sub _ _ _) =>
    if isInvariantE e then true
    else
      match k, sub with
      | .AND, [x, y] => wrShape x && wrShape y
      | .EQ, [x, y] =>
        isCost (if x.getType.kind == .RATE then x.childD 0 else y.childD 0)
      | _, _ => false

/-- The pure invariant conjuncts, in decompose order. -/
def pureLeaves : Expr → List Expr
  | e@(.node k sub _ _ _) =>
    if isInvariantE e then [e]
    else
      match k, sub with
      | .AND, [x, y] => pureLeaves x ++ pureLeaves y
      | _, _ => []

/-- The right-hand sides of the cost-rate equations, in decompose
order. -/
def costRatesOf : Expr → List Expr
  | e@(.node k sub _ _ _) =>
    if isInvariantE e then []
    else
      match k, sub with
      | .AND, [x, y] => costRatesOf x ++ costRatesOf y
      | .EQ, [x, y] =>
        if isCost (if x.getType.kind == .RATE then x.childD 0
                   else y.childD 0) then
          [if x.getType.kind == .RATE then y else x]
        else []
      | _, _ => []

/-- Whether some pure conjunct is a strict (LT) bound. -/
def hasStrictLeaf : Expr → Bool
  | e@(.node k sub _ _ _) =>
    if isInvariantE e then k == .LT
    else
      match k, sub with
      | .AND, [x, y] => hasStrictLeaf x || hasStrictLeaf y
      | _, _ => false

/-- The residual-invariant fold of decompose: conjoin each pure conjunct
onto the accumulator (which is the constant 1 initially, hence never
empty). -/
def conjoinInv (acc : Expr) : List Expr → Expr
  | [] => acc
  | l :: rest =>
    conjoinInv
      (if acc.isEmptyE then l
       else Expr.createBinary .AND acc l (TType.createPrimitive .INVARIANT))
      rest

theorem conjoinInv_append (acc : Expr) (l1 l2 : List Expr) :
    conjoinInv acc (l1 ++ l2) = conjoinInv (conjoinInv acc l1) l2 := by
  induction l1 generalizing acc with
  | nil => rw [conjoinInv]; rfl
  | cons x rest ih => rw [List.cons_append, conjoinInv, conjoinInv, ih]

theorem getLastD_append (l1 l2 : List Expr) (d : Expr) :
    (l1 ++ l2).getLastD d = l2.getLastD (l1.getLastD d) := by
  induction l1 generalizing d with
  | nil => rfl
  | cons a l1 ih =>
    rw [List.cons_append, List.getLastD_cons, ih, List.getLastD_cons]

/-- decompose on a wrShape tree: the cost rate becomes the last cost
rate of the tree (or stays), the residual is the fold of the pure
conjuncts over the accumulated invariant, a strict pure conjunct sets
the flag, no clock rates appear, and the cost-rate count grows by the
number of cost-rate equations. -/
theorem decompose_wr :
    ∀ (e : Expr) (d : RateDecomposer), wrShape e = true →
      decompose e false d =
        ⟨(costRatesOf e).getLastD d.costRate,
         conjoinInv d.invariant (pureLeaves e),
         d.hasStrictInvariant || hasStrictLeaf e,
         d.hasClockRates,
         d.countCostRates + (costRatesOf e).length⟩ := by
  intro e
  induction e using wrShape.induct with
  | case1 k sub v sy ty hinv =>
    intro d _
    rw [decompose.eq_def, pureLeaves.eq_def, costRatesOf.eq_def, hasStrictLeaf.eq_def]
    simp only [hinv, if_true, conjoinInv, List.getLastD]
    cases hLT : (k == Kind.LT) <;> cases d <;> simp_all
  | case2 v sy ty x y hinv heq ihx ihy =>
    intro d hsh
    rw [wrShape.eq_def] at hsh
    replace hsh : (wrShape x && wrShape y) = true := by
      simpa [hinv] using hsh
    rw [Bool.and_eq_true] at hsh
    rw [decompose.eq_def, pureLeaves.eq_def, costRatesOf.eq_def, hasStrictLeaf.eq_def]
    simp only [hinv, if_false, Bool.false_eq_true, ite_false]
    rw [ihx d hsh.1, ihy _ hsh.2, conjoinInv_append, getLastD_append]
    simp [Bool.or_assoc, Nat.add_assoc]
  | case3 v sy ty x y hinv heq =>
    intro d hsh
    rw [wrShape.eq_def] at hsh
    replace hsh :
        isCost (if x.getType.kind == Kind.RATE then x.childD 0
                else y.childD 0) = true := by
      simpa [hinv] using hsh
    rw [decompose.eq_def, pureLeaves.eq_def, costRatesOf.eq_def, hasStrictLeaf.eq_def]
    simp only [hinv, if_false, Bool.false_eq_true, ite_false]
    cases hr : (x.getType.kind == Kind.RATE) <;>
      simp_all [conjoinInv, List.getLastD]
  | case4 k sub v sy ty hinv h hno1 hno2 =>
    intro d hsh
    rw [wrShape.eq_def] at hsh
    simp only [hinv, Bool.false_eq_true, if_false, ite_false] at hsh

/-! Claims C1 and C4 fixtures: scenario 2 (x <= 3 && rate(c) == 2, x a
clock, c a cost) and scenario 3 (rate(c) == 2 && rate(c) == 3). -/

def leInv : Expr :=
  Expr.node .LE [xClock, Expr.createConstant 3] 0 none unknownType

def rateC : Expr := Expr.node .RATE [cCost] 0 none unknownType

def eqRate : Expr :=
  Expr.node .EQ [rateC, Expr.createConstant 2] 0 none unknownType

def invWR : Expr := Expr.node .AND [leInv, eqRate] 0 none unknownType

def eqRate3 : Expr :=
  Expr.node .EQ [rateC, Expr.createConstant 3] 0 none unknownType

def invCC : Expr := Expr.node .AND [eqRate, eqRate3] 0 none unknownType

/-- x <= 3 as the checker rewrites it (type invariant attached). -/
def leInvC : Expr :=
  Expr.node .LE [xClock, Expr.createConstant 3] 0 none
    (TType.createPrimitive .INVARIANT)

def rateCC : Expr :=
  Expr.node .RATE [cCost] 0 none (TType.createPrimitive .RATE)

def eqRateC : Expr :=
  Expr.node .EQ [rateCC, Expr.createConstant 2] 0 none
    (TType.createPrimitive .INVARIANT_WR)

def invWRC : Expr :=
  Expr.node .AND [leInvC, eqRateC] 0 none
    (TType.createPrimitive .INVARIANT_WR)

def eqRate3C : Expr :=
  Expr.node .EQ [rateCC, Expr.createConstant 3] 0 none
    (TType.createPrimitive .INVARIANT_WR)

def invCCC : Expr :=
  Expr.node .AND [eqRateC, eqRate3C] 0 none
    (TType.createPrimitive .INVARIANT_WR)

theorem checkExpression_invWR :
    checkExpression noCtx invWR = ⟨true, invWRC, []⟩ := by
  simp [invWR, leInv, rateC, eqRate, invWRC, leInvC, rateCC, eqRateC,
    xClock, cCost, clockT, costT, checkExpression, checkChildren_cons,
    checkChildren_nil, dispatchExpr, caseOf, finishCase, isIntegralE,
    isClockE, isBound, isIntegerE, isDoubleE, isDiffE, isNumber,
    isDoubleValue, isCost, isInvariantE, isInvariantWR, isGuardE,
    areEqCompatible, areEquivalent, TType.strip, isSameScalarType,
    channelCapability, TType.isIntegral, TType.isClock, TType.isInteger,
    TType.isDouble, TType.isDiff, TType.isInvariant, TType.isRecord,
    TType.isArray, TType.isScalar, TType.isChannel, TType.isBoolean,
    TType.isGuard, TType.is, isWrapKind, TType.unknown, unknownType]

theorem checkExpression_invCC :
    checkExpression noCtx invCC = ⟨true, invCCC, []⟩ := by
  simp [invCC, rateC, eqRate, eqRate3, invCCC, rateCC, eqRateC, eqRate3C,
    cCost, costT, checkExpression, checkChildren_cons,
    checkChildren_nil, dispatchExpr, caseOf, finishCase, isIntegralE,
    isClockE, isBound, isIntegerE, isDoubleE, isDiffE, isNumber,
    isDoubleValue, isCost, isInvariantE, isInvariantWR, isGuardE,
    areEqCompatible, areEquivalent, TType.strip, isSameScalarType,
    channelCapability, TType.isIntegral, TType.isClock, TType.isInteger,
    TType.isDouble, TType.isDiff, TType.isInvariant, TType.isRecord,
    TType.isArray, TType.isScalar, TType.isChannel, TType.isBoolean,
    TType.isGuard, TType.is, isWrapKind, TType.unknown, unknownType]

/-- C1 (amended): for a state whose checked invariant is side-effect
free, of invariant-with-rate shape, a conjunction of pure invariant
conjuncts and exactly one cost-rate equation with right-hand side rhs,
visitState rewrites the invariant to the constant 1 conjoined with each
pure conjunct in order (the residual starts from the decomposer's
constant-1 invariant, never the conjuncts alone), sets the cost rate to
rhs, emits exactly the diagnostics of the expression check (one cost
rate, so no error), records no stopwatch, and records a strict
invariant exactly when some pure conjunct is strict. -/
theorem claim_C1_rate_decomposition (ctx : Ctx) (inv cr0 rhs : Expr)
    (hne : inv.isEmptyE = false)
    (hok : (checkExpression ctx inv).ok = true)
    (hwr : isInvariantWR (checkExpression ctx inv).expr = true)
    (hch : changesAnyVariable (checkExpression ctx inv).expr = false)
    (hsh : wrShape (checkExpression ctx inv).expr = true)
    (hcr : costRatesOf (checkExpression ctx inv).expr = [rhs]) :
    visitState ctx ⟨inv, cr0, emptyExpr⟩ =
      ⟨⟨conjoinInv (Expr.createConstant 1)
          (pureLeaves (checkExpression ctx inv).expr), rhs, emptyExpr⟩,
       (checkExpression ctx inv).ds, false,
       hasStrictLeaf (checkExpression ctx inv).expr⟩ := by
  have hd := decompose_wr (checkExpression ctx inv).expr
    RateDecomposer.init hsh
  rw [visitState]
  rcases hE : checkExpression ctx inv with ⟨ok, ex, cds⟩
  rw [hE] at hok hwr hch hcr hd
  subst hok
  obtain ⟨k, sub, v, sy, ty⟩ := inv
  simp only [Expr.isEmptyE, Expr.kind, beq_eq_false_iff_ne] at hne
  simp only [CRes.expr] at hd
  simp only [hE]
  rw [hd]
  simp [hne, hwr, hch, hcr, RateDecomposer.init, List.getLastD,
    emptyExpr]

/-- C1 counterexample: for the scenario-2 state (invariant
x <= 3 && rate(c) == 2), visitState succeeds with cost rate 2 and no
diagnostics, but the rewritten invariant is the conjunction
AND(1, x <= 3) starting from the decomposer's constant-1 invariant, not
the pure conjunct x <= 3 (checked form) alone. -/
theorem claim_C1_counterexample :
    (visitState noCtx ⟨invWR, emptyExpr, emptyExpr⟩).ds = [] ∧
    (visitState noCtx ⟨invWR, emptyExpr, emptyExpr⟩).state.costRate =
      Expr.createConstant 2 ∧
    (visitState noCtx ⟨invWR, emptyExpr, emptyExpr⟩).state.invariant =
      Expr.node .AND [Expr.createConstant 1, leInvC] 0 none
        (TType.createPrimitive .INVARIANT) ∧
    (visitState noCtx ⟨invWR, emptyExpr, emptyExpr⟩).state.invariant ≠
      leInvC := by
  have hv : visitState noCtx ⟨invWR, emptyExpr, emptyExpr⟩ =
      ⟨⟨Expr.node .AND [Expr.createConstant 1, leInvC] 0 none
          (TType.createPrimitive .INVARIANT), Expr.createConstant 2,
        emptyExpr⟩, [], false, false⟩ := by
    rw [visitState, checkExpression_invWR]
    simp [invWR, invWRC, leInvC, rateCC, eqRateC, leInv, eqRate, rateC,
      xClock, cCost, clockT, costT, decompose.eq_def, RateDecomposer.init,
      isInvariantE, isInvariantWR, isCost, changesAnyVariable,
      changesAnyVariableList, isWriteKind, TType.isInvariant,
      TType.isIntegral, TType.is, isWrapKind, emptyExpr, unknownType]
  rw [hv]
  refine ⟨rfl, rfl, rfl, ?_⟩
  simp [leInvC]

/-- C1 witness: the amended theorem applied at the scenario-2 state. -/
theorem claim_C1_rate_decomposition_witness :
    visitState noCtx ⟨invWR, emptyExpr, emptyExpr⟩ =
      ⟨⟨conjoinInv (Expr.createConstant 1)
          (pureLeaves (checkExpression noCtx invWR).expr),
        Expr.createConstant 2, emptyExpr⟩,
       (checkExpression noCtx invWR).ds, false,
       hasStrictLeaf (checkExpression noCtx invWR).expr⟩ :=
  claim_C1_rate_decomposition noCtx invWR emptyExpr (Expr.createConstant 2)
    (by simp [invWR])
    (by rw [checkExpression_invWR])
    (by rw [checkExpression_invWR]
        simp [invWRC, leInvC, eqRateC, isInvariantWR, isInvariantE,
          TType.isInvariant, TType.isIntegral, TType.is, isWrapKind])
    (by rw [checkExpression_invWR]
        simp [invWRC, leInvC, eqRateC, rateCC, cCost, changesAnyVariable,
          changesAnyVariableList, isWriteKind, xClock])
    (by rw [checkExpression_invWR]
        simp [invWRC, leInvC, eqRateC, rateCC, cCost, costT, wrShape.eq_def,
          isInvariantE, isCost, TType.isInvariant, TType.isIntegral,
          TType.is, isWrapKind])
    (by rw [checkExpression_invWR]
        simp [invWRC, leInvC, eqRateC, rateCC, cCost, costT,
          costRatesOf.eq_def, isInvariantE, isCost, TType.isInvariant,
          TType.isIntegral, TType.is, isWrapKind])

/-- C4: for a state whose checked invariant is side-effect free, of
invariant-with-rate shape, and a conjunction of pure invariant conjuncts
and cost-rate equations, the diagnostics of visitState are exactly those
of the expression check followed by the error
"$Only_one_cost_rate_is_allowed" when more than one cost-rate equation
is present and nothing otherwise. -/
theorem claim_C4_only_one_cost_rate (ctx : Ctx) (inv cr0 : Expr)
    (hne : inv.isEmptyE = false)
    (hok : (checkExpression ctx inv).ok = true)
    (hwr : isInvariantWR (checkExpression ctx inv).expr = true)
    (hch : changesAnyVariable (checkExpression ctx inv).expr = false)
    (hsh : wrShape (checkExpression ctx inv).expr = true) :
    (visitState ctx ⟨inv, cr0, emptyExpr⟩).ds =
      (checkExpression ctx inv).ds ++
        (if 1 < (costRatesOf (checkExpression ctx inv).expr).length then
           [Diag.error "$Only_one_cost_rate_is_allowed"]
         else []) := by
  have hd := decompose_wr (checkExpression ctx inv).expr
    RateDecomposer.init hsh
  rw [visitState]
  rcases hE : checkExpression ctx inv with ⟨ok, ex, cds⟩
  rw [hE] at hok hwr hch hd
  subst hok
  obtain ⟨k, sub, v, sy, ty⟩ := inv
  simp only [Expr.isEmptyE, Expr.kind, beq_eq_false_iff_ne] at hne
  simp only [CRes.expr] at hd
  simp only [hE]
  rw [hd]
  simp [hne, hwr, hch, RateDecomposer.init, emptyExpr]

/-- C4 witness: the theorem applied at the scenario-3 state (invariant
rate(c) == 2 && rate(c) == 3, two cost rates), where the error is
emitted. -/
theorem claim_C4_only_one_cost_rate_witness :
    (visitState noCtx ⟨invCC, emptyExpr, emptyExpr⟩).ds =
      [Diag.error "$Only_one_cost_rate_is_allowed"] := by
  have h := claim_C4_only_one_cost_rate noCtx invCC emptyExpr
    (by simp [invCC])
    (by rw [checkExpression_invCC])
    (by rw [checkExpression_invCC]
        simp [invCCC, eqRateC, eqRate3C, isInvariantWR, isInvariantE,
          TType.isInvariant, TType.isIntegral, TType.is, isWrapKind])
    (by rw [checkExpression_invCC]
        simp [invCCC, eqRateC, eqRate3C, rateCC, cCost,
          changesAnyVariable, changesAnyVariableList, isWriteKind])
    (by rw [checkExpression_invCC]
        simp [invCCC, eqRateC, eqRate3C, rateCC, cCost, costT,
          wrShape.eq_def, isInvariantE, isCost, TType.isInvariant,
          TType.isIntegral, TType.is, isWrapKind])
  rw [h, checkExpression_invCC]
  simp [invCCC, eqRateC, eqRate3C, rateCC, cCost, costT,
    costRatesOf.eq_def, isInvariantE, isCost, TType.isInvariant,
    TType.isIntegral, TType.is, isWrapKind]

/-! Claim C3: record initialisers are reordered to the declared field
order; missing fields are reported. -/

theorem getD_set_self_e (l : List Expr) (i : Nat) (v d : Expr)
    (h : i < l.length) : (l.set i v).getD i d = v := by
  rw [List.getD_eq_getElem?_getD, List.getElem?_set_self h]
  rfl

theorem getD_set_ne_e (l : List Expr) (i j : Nat) (v d : Expr)
    (h : i ≠ j) : (l.set i v).getD j d = l.getD j d := by
  rw [List.getD_eq_getElem?_getD, List.getElem?_set_ne h,
    ← List.getD_eq_getElem?_getD]

theorem getD_replicate_empty (n j : Nat) :
    (List.replicate n emptyExpr).getD j emptyExpr = emptyExpr := by
  rw [List.getD_eq_getElem?_getD, List.getElem?_replicate]
  split <;> rfl

/-- The diagnostics the record-initialiser loop appends: those of the
checked initialiser of each entry, in written order. -/
def recDs (ctx : Ctx) (t : TType) : List (String × Expr) → List Diag
  | [] => []
  | p :: rest =>
    (checkInitialiser ctx (t.getSubI (t.findIndexOf p.1).toNat) p.2).2 ++
      recDs ctx t rest

/-- The record-initialiser loop on entries that are all labelled with
distinct declared fields whose slots are still empty: the length of the
slot list is kept, the slot of field j receives the checked initialiser
of the entry labelled with field j (independent of the entry order) and
keeps its old value when no entry names field j, and the diagnostics of
the checked initialisers are appended in written order. -/
theorem initRecordLoop_char (ctx : Ctx) (t : TType) :
    ∀ (entries : List (String × Expr)) (acc : InitAcc),
      acc.result.length = t.getRecordSize →
      (∀ p ∈ entries, p.1 ≠ "" ∧ 0 ≤ t.findIndexOf p.1 ∧
        t.findIndexOf p.1 < (t.getRecordSize : Int)) →
      entries.Pairwise (fun p q => t.findIndexOf p.1 ≠ t.findIndexOf q.1) →
      (∀ p ∈ entries,
        (acc.result.getD (t.findIndexOf p.1).toNat emptyExpr).isEmptyE
          = true) →
      (initRecordLoop ctx t entries acc).result.length = t.getRecordSize ∧
      (∀ j : Nat,
        (initRecordLoop ctx t entries acc).result.getD j emptyExpr =
          (match entries.find?
              (fun p => t.findIndexOf p.1 == (j : Int)) with
           | some p => (checkInitialiser ctx (t.getSubI j) p.2).1
           | none => acc.result.getD j emptyExpr)) ∧
      (initRecordLoop ctx t entries acc).ds =
        acc.ds ++ recDs ctx t entries := by
  intro entries
  induction entries with
  | nil =>
    intro acc hlen hall hdist hfree
    rw [initRecordLoop]
    simp [recDs, hlen]
  | cons p rest ih =>
    obtain ⟨label, child⟩ := p
    intro acc hlen hall hdist hfree
    obtain ⟨hlab, hge, hlt⟩ := hall _ (List.mem_cons_self _ _)
    obtain ⟨hhead, hdist2⟩ := List.pairwise_cons.mp hdist
    have hfreeh := hfree _ (List.mem_cons_self _ _)
    dsimp only at hlab hge hlt hhead hfreeh
    have hlabB : (label != "") = true := bne_iff_ne.mpr hlab
    have hne1 : (t.findIndexOf label == (-1 : Int)) = false := by
      rw [beq_eq_false_iff_ne]
      omega
    have hnle : ¬ ((t.getRecordSize : Int) ≤ t.findIndexOf label) := by
      omega
    rw [initRecordLoop.eq_def]
    simp only [hlabB, hne1, hnle, if_true, if_false, ite_true, ite_false,
      Bool.true_and, Bool.and_false, Bool.false_eq_true]
    rw [hfreeh]
    simp only [Bool.not_true, Bool.false_eq_true, if_false, ite_false]
    have hIH := ih
      ⟨acc.result.set (t.findIndexOf label).toNat
        (checkInitialiser ctx
          (t.getSubI (t.findIndexOf label).toNat) child).1,
       t.findIndexOf label + 1,
       acc.ds ++ (checkInitialiser ctx
         (t.getSubI (t.findIndexOf label).toNat) child).2⟩
      (by simp [List.length_set, hlen])
      (fun q hq => hall q (List.mem_cons_of_mem _ hq))
      hdist2
      (fun q hq => by
        have hfq := hfree q (List.mem_cons_of_mem _ hq)
        have hqq := hhead q hq
        obtain ⟨-, hge2, -⟩ := hall q (List.mem_cons_of_mem _ hq)
        dsimp only
        rw [getD_set_ne_e]
        · exact hfq
        · omega)
    obtain ⟨ihlen, ihslot, ihds⟩ := hIH
    refine ⟨ihlen, ?_, ?_⟩
    · intro j
      rw [List.find?_cons]
      cases hp : t.findIndexOf label == (j : Int) with
      | true =>
        simp only [hp]
        have hj : t.findIndexOf label = (j : Int) := beq_iff_eq.mp hp
        have hnone : rest.find?
            (fun p => t.findIndexOf p.1 == (j : Int)) = none := by
          rw [List.find?_eq_none]
          intro q hq
          have hqq := hhead q hq
          simp only [beq_iff_eq]
          omega
        rw [ihslot j, hnone]
        dsimp only
        have hjn : (t.findIndexOf label).toNat = j := by omega
        rw [hjn, getD_set_self_e]
        omega
      | false =>
        simp only [hp]
        rw [ihslot j]
        cases hfr : rest.find?
            (fun p => t.findIndexOf p.1 == (j : Int)) with
        | some q => simp only [hfr]
        | none =>
          simp only [hfr]
          rw [getD_set_ne_e]
          rw [beq_eq_false_iff_ne] at hp
          omega
    · rw [ihds]
      dsimp only
      rw [recDs]
      dsimp only
      rw [List.append_assoc]

/-- C3: for a record-typed declaration whose list initialiser names
every entry with a distinct declared field, the accepted initialiser is
a LIST with exactly as many children as the record has declared fields,
whose j-th child is the checked initialiser of the entry naming the j-th
declared field regardless of the order the entries were written; a
declared field no entry names is reported with
"$Incomplete_initialiser". -/
theorem claim_C3_record_initialiser_reorder (ctx : Ctx) (t : TType)
    (init : Expr)
    (hcompat : areAssignmentCompatible t init.getType true = false)
    (harr : t.isArray = false)
    (hbr : (t.isRecord || (init.kind == .LIST)) = true)
    (hall : ∀ p ∈ listEntries init.getType 0 init.sub, p.1 ≠ "" ∧
      0 ≤ t.findIndexOf p.1 ∧
      t.findIndexOf p.1 < (t.getRecordSize : Int))
    (hdist : (listEntries init.getType 0 init.sub).Pairwise
      (fun p q => t.findIndexOf p.1 ≠ t.findIndexOf q.1)) :
    (checkInitialiser ctx t init).1.kind = .LIST ∧
    (checkInitialiser ctx t init).1.size = t.getRecordSize ∧
    (∀ j : Nat,
      (checkInitialiser ctx t init).1.childD j =
        (match (listEntries init.getType 0 init.sub).find?
            (fun p => t.findIndexOf p.1 == (j : Int)) with
         | some p => (checkInitialiser ctx (t.getSubI j) p.2).1
         | none => emptyExpr)) ∧
    (∀ j : Nat, j < t.getRecordSize →
      (listEntries init.getType 0 init.sub).find?
          (fun p => t.findIndexOf p.1 == (j : Int)) = none →
      Diag.error "$Incomplete_initialiser" ∈ (checkInitialiser ctx t init).2) := by
  obtain ⟨ik, isub, iv, isy, ity⟩ := init
  simp only [Expr.getType, Expr.sub, Expr.kind] at hcompat hbr hall hdist ⊢
  have hch := initRecordLoop_char ctx t (listEntries ity 0 isub)
    ⟨List.replicate t.getRecordSize emptyExpr, 0, []⟩
    (by simp)
    hall
    hdist
    (fun q hq => by
      rw [getD_replicate_empty]
      rfl)
  obtain ⟨hlen, hslot, hds⟩ := hch
  rw [checkInitialiser]
  simp only [Expr.getType, Expr.sub, Expr.kind]
  simp only [hcompat, harr, hbr, Bool.false_and, if_true, if_false,
    ite_true, ite_false, Bool.false_eq_true]
  refine ⟨by simp, by simp [hlen], ?_, ?_⟩
  · intro j
    simp only [Expr.createNary, Expr.childD, Expr.sub]
    rw [hslot j]
    cases hfr : (listEntries ity 0 isub).find?
        (fun p => t.findIndexOf p.1 == (j : Int)) with
    | some q => simp only [hfr]
    | none =>
      simp only [hfr]
      exact getD_replicate_empty _ _
  · intro j hj hnone
    have h0 : (initRecordLoop ctx t (listEntries ity 0 isub)
        ⟨List.replicate t.getRecordSize emptyExpr, 0, []⟩).result.getD j
          emptyExpr = emptyExpr := by
      rw [hslot j, hnone]
      exact getD_replicate_empty _ _
    have hjlen : j < (initRecordLoop ctx t
        (listEntries ity 0 isub)
        ⟨List.replicate t.getRecordSize emptyExpr, 0, []⟩).result.length := by
      rw [hlen]
      exact hj
    have hany : (initRecordLoop ctx t (listEntries ity 0 isub)
        ⟨List.replicate t.getRecordSize emptyExpr, 0, []⟩).result.any
          (·.isEmptyE) = true := by
      rw [List.getD_eq_getElem _ _ hjlen] at h0
      refine List.any_eq_true.mpr ⟨_, List.getElem_mem hjlen, ?_⟩
      rw [h0]
      rfl
    simp [hany]
    right
    rw [List.getD_eq_getElem _ _ hjlen] at h0
    refine ⟨_, List.getElem_mem hjlen, ?_⟩
    rw [h0]
    rfl

/-! C3 witness fixtures: struct { int x; int y } initialised with
{ y = 1, x = 2 } (scenario 9, reordered) and with { y = 1 } alone
(incomplete). -/

def recT : TType := TType.node .RECORD ["x", "y"] [intT, intT] none

def listYX : TType := TType.node .LIST ["y", "x"] [intT, intT] none

def initYX : Expr :=
  Expr.node .LIST [Expr.createConstant 1, Expr.createConstant 2] 0 none listYX

def listY : TType := TType.node .LIST ["y"] [intT] none

def initY : Expr := Expr.node .LIST [Expr.createConstant 1] 0 none listY

/-- C3 witness: the theorem applied at struct { int x; int y } — the
initialiser { y = 1, x = 2 } is reordered to LIST [2, 1] in declared
field order, and { y = 1 } alone is reported incomplete. -/
theorem claim_C3_record_initialiser_reorder_witness :
    (checkInitialiser noCtx recT initYX).1.childD 0 = Expr.createConstant 2 ∧
    (checkInitialiser noCtx recT initYX).1.childD 1 = Expr.createConstant 1 ∧
    (checkInitialiser noCtx recT initYX).1.size = recT.getRecordSize ∧
    Diag.error "$Incomplete_initialiser" ∈
      (checkInitialiser noCtx recT initY).2 := by
  have hx : recT.findIndexOf "x" = 0 := rfl
  have hy : recT.findIndexOf "y" = 1 := rfl
  have hcompat1 : areAssignmentCompatible recT initYX.getType true = false := by
    simp [initYX, listYX, recT, areAssignmentCompatible, areEquivalent,
      TType.strip, isWrapKind, TType.isClock, TType.isDouble,
      TType.isIntegral, TType.isInteger, TType.isBoolean, TType.isRecord,
      TType.isArray, TType.isScalar, TType.isChannel, TType.is, intT]
  have hcompat2 : areAssignmentCompatible recT initY.getType true = false := by
    simp [initY, listY, recT, areAssignmentCompatible, areEquivalent,
      TType.strip, isWrapKind, TType.isClock, TType.isDouble,
      TType.isIntegral, TType.isInteger, TType.isBoolean, TType.isRecord,
      TType.isArray, TType.isScalar, TType.isChannel, TType.is, intT]
  have h1 := claim_C3_record_initialiser_reorder noCtx recT initYX
    hcompat1 (by decide) (by decide) (by decide) (by decide)
  have h2 := claim_C3_record_initialiser_reorder noCtx recT initY
    hcompat2 (by decide) (by decide) (by decide) (by decide)
  have hent1 : listEntries initYX.getType 0 initYX.sub =
      [("y", Expr.createConstant 1), ("x", Expr.createConstant 2)] := rfl
  have hent2 : listEntries initY.getType 0 initY.sub =
      [("y", Expr.createConstant 1)] := rfl
  refine ⟨?_, ?_, h1.2.1, ?_⟩
  · rw [h1.2.2.1 0, hent1]
    simp [List.find?, hx, hy]
    rw [checkInitialiser]
    simp [areAssignmentCompatible, TType.getSubI,
      TType.strip, isWrapKind, recT, intT, TType.isClock, TType.isDouble,
      TType.isIntegral, TType.isInteger, TType.isBoolean, TType.is]
  · rw [h1.2.2.1 1, hent1]
    simp [List.find?, hx, hy]
    rw [checkInitialiser]
    simp [areAssignmentCompatible, TType.getSubI,
      TType.strip, isWrapKind, recT, intT, TType.isClock, TType.isDouble,
      TType.isIntegral, TType.isInteger, TType.isBoolean, TType.is]
  · refine h2.2.2.2 0 (by decide) ?_
    rw [hent2]
    simp [List.find?, hy]

end Utap
